import Mathlib

/-!
# Verification of the ono-lang execution pipeline

A shallow embedding of the ono scripting-language pipeline
(herluf-ba/ono-lang), covering the parts of the two crates that the
claims under scrutiny are about:

* the main crate under `src/src/` (`lexer → parser → interpreter`, with
  functions, closures, ranges and `for`/`while`/`return` statements), and
* the library crate under `src/onoi/` (`lexer → parser → typechecker →
  interpreter` over the smaller expression/let language).

Machine `f64` numbers are modelled as `Rat`: every numeric literal the
lexer can produce is a decimal fraction, and the arithmetic the claims
mention (comparisons, `+ - * /` and the zero-divisor guard) is exact on
the rationals.  Rust `HashMap<String, V>` frames are modelled as
association lists with insert-overwrite semantics (one binding per key).
Rust panics (`panic!` / the `language_error` helper of the onoi crate)
are modelled as a distinguished `fatal`/`abort` outcome, separate from
`Result::Err` values; non-termination is modelled with a fuel parameter
(`timeout` when the fuel runs out).
-/

/-- Token kinds, the union of `src/src/types/token.rs` (main crate) and
`src/onoi/src/types/token.rs` (onoi crate); the two Rust enums are
near-identical and the constructors below carry the same payloads
(`f64` modelled as `Rat`). -/
inductive TokenKind where
  | LEFTPAREN
  | RIGHTPAREN
  | LEFTBRACKET
  | RIGHTBRACKET
  | LEFTBRACE
  | RIGHTBRACE
  | COMMA
  | DOT
  | DOTDOT
  | MINUS
  | PLUS
  | COLON
  | SEMICOLON
  | SLASH
  | STAR
  | QUESTIONMARK
  | BANG
  | BANGEQUAL
  | EQUAL
  | EQUALEQUAL
  | GREATER
  | GREATEREQUAL
  | LESS
  | LESSEQUAL
  | IDENTIFIER (name : String)
  | STRING (s : String)
  | NUMBER (n : Rat)
  | TRUE
  | FALSE
  | SOME
  | NONE
  | AND
  | OR
  | LET
  | IF
  | ELSE
  | MATCH
  | HAS
  | TRAIT
  | ENUM
  | OBJ
  | FUN
  | RETURN
  | SELF
  | WHILE
  | FOR
  | IN
  | PRINT
  | NULL
  | STRINGKW
  | NUMBERKW
  | BOOL
  | EOF
  | UNKNOWN
  deriving Repr

/-- Discriminant of a token kind, mirroring `std::mem::discriminant`:
two kinds with the same constructor but different payloads share a tag. -/
def TokenKind.tag : TokenKind → Nat
  | .LEFTPAREN => 0
  | .RIGHTPAREN => 1
  | .LEFTBRACKET => 2
  | .RIGHTBRACKET => 3
  | .LEFTBRACE => 4
  | .RIGHTBRACE => 5
  | .COMMA => 6
  | .DOT => 7
  | .DOTDOT => 8
  | .MINUS => 9
  | .PLUS => 10
  | .COLON => 11
  | .SEMICOLON => 12
  | .SLASH => 13
  | .STAR => 14
  | .QUESTIONMARK => 15
  | .BANG => 16
  | .BANGEQUAL => 17
  | .EQUAL => 18
  | .EQUALEQUAL => 19
  | .GREATER => 20
  | .GREATEREQUAL => 21
  | .LESS => 22
  | .LESSEQUAL => 23
  | .IDENTIFIER _ => 24
  | .STRING _ => 25
  | .NUMBER _ => 26
  | .TRUE => 27
  | .FALSE => 28
  | .SOME => 29
  | .NONE => 30
  | .AND => 31
  | .OR => 32
  | .LET => 33
  | .IF => 34
  | .ELSE => 35
  | .MATCH => 36
  | .HAS => 37
  | .TRAIT => 38
  | .ENUM => 39
  | .OBJ => 40
  | .FUN => 41
  | .RETURN => 42
  | .SELF => 43
  | .WHILE => 44
  | .FOR => 45
  | .IN => 46
  | .PRINT => 47
  | .NULL => 48
  | .STRINGKW => 49
  | .NUMBERKW => 50
  | .BOOL => 51
  | .EOF => 52
  | .UNKNOWN => 53

/-- `TokenKind::is_same`: discriminant equality (payloads ignored). -/
def TokenKind.is_same (a b : TokenKind) : Bool :=
  a.tag == b.tag

/-- The derived `PartialEq` on `TokenKind`: same constructor and, for the
payload-carrying literal kinds, equal payloads. -/
def TokenKind.beq (a b : TokenKind) : Bool :=
  match a, b with
  | .IDENTIFIER x, .IDENTIFIER y => x == y
  | .STRING x, .STRING y => x == y
  | .NUMBER x, .NUMBER y => x == y
  | _, _ => a.tag == b.tag

instance : BEq TokenKind := ⟨TokenKind.beq⟩

/-- Source position (`src/{src,onoi}/src/types/token.rs`). -/
structure Position where
  line : Nat
  column : Nat
  deriving Repr

/-- A token: kind, raw lexeme and source position. -/
structure Token where
  kind : TokenKind
  lexeme : String
  position : Position
  deriving Repr

/-- `Token::new(kind, line, column, lexeme)`. -/
def Token.new (kind : TokenKind) (line column : Nat) (lexeme : String) : Token :=
  { kind := kind, lexeme := lexeme, position := ⟨line, column⟩ }

/-! ## The generic scope chain, `src/src/environment.rs`

`Environment<V>` is a chain of frames, each a `HashMap<String, V>` plus an
optional boxed parent.  Frames are modelled as association lists with one
binding per key; `Box::clone` of the parent corresponds to ordinary value
copying in the functional embedding.  The spec (§4.4) states that the onoi
crate uses an `Environment<V>` of identical structure, so the typechecker
and interpreter of that crate are embedded over the same type. -/

/-- Lookup in one frame (mirrors `HashMap::get`). -/
def frameGet {V : Type} : List (String × V) → String → Option V
  | [], _ => none
  | (k, v) :: rest, name => if k = name then some v else frameGet rest name

/-- Insert-overwrite in one frame (mirrors `HashMap::insert`). -/
def frameInsert {V : Type} : List (String × V) → String → V → List (String × V)
  | [], name, v => [(name, v)]
  | (k, w) :: rest, name, v =>
    if k = name then (name, v) :: rest else (k, w) :: frameInsert rest name v

/-- `Environment<V>`: innermost frame plus optional enclosing chain. -/
inductive Environment (V : Type) where
  | mk (enclosing : Option (Environment V)) (values : List (String × V))

/-- The frame map of the innermost scope. -/
def Environment.values {V : Type} : Environment V → List (String × V)
  | .mk _ vs => vs

/-- The enclosing chain, if any. -/
def Environment.enclosing {V : Type} : Environment V → Option (Environment V)
  | .mk enc _ => enc

/-- `Environment::new`: empty root scope. -/
def Environment.new (V : Type) : Environment V := .mk none []

/-- `Environment::new_nested`: a fresh empty frame whose enclosing chain is a
clone of `self` (the Rust code boxes a `self.clone()`). -/
def Environment.new_nested {V : Type} (e : Environment V) : Environment V :=
  .mk (some e) []

/-- `Environment::nest` (used as `self.environment.nest()` by the main-crate
interpreter): replace the scope by a nested copy of itself.  The method body
is not in the dump of `environment.rs`; it is forced to coincide with
`new_nested` applied in place. -/
def Environment.nest {V : Type} (e : Environment V) : Environment V :=
  e.new_nested

/-- `Environment::pop`: drop the innermost frame; a root scope is left
unchanged. -/
def Environment.pop {V : Type} : Environment V → Environment V
  | .mk none vs => .mk none vs
  | .mk (some enc) _ => enc

/-- `Environment::define`: insert/overwrite in the innermost frame only. -/
def Environment.define {V : Type} : Environment V → String → V → Environment V
  | .mk enc vs, name, v => .mk enc (frameInsert vs name v)

/-- `Environment::get`: check the innermost frame, else recurse outwards
(the source's single `match` on `&mut self.enclosing` is split over the two
`Option` constructors so the recursion is on a direct subterm). -/
def Environment.get {V : Type} : Environment V → String → Option V
  | .mk none vs, name =>
    match frameGet vs name with
    | some v => some v
    | none => none
  | .mk (some e) vs, name =>
    match frameGet vs name with
    | some v => some v
    | none => e.get name

/-- `Environment::assign`: overwrite the binding in the innermost frame that
already defines `name`, walking outwards; `none` (Rust `Err(())`) if the name
is defined nowhere in the chain — assignment never creates a binding.  As in
`get`, the `Option` match is lifted into the patterns. -/
def Environment.assign {V : Type} : Environment V → String → V → Option (Environment V)
  | .mk none vs, name, v =>
    match frameGet vs name with
    | some _ => some (.mk none (frameInsert vs name v))
    | none => none
  | .mk (some e) vs, name, v =>
    match frameGet vs name with
    | some _ => some (.mk (some e) (frameInsert vs name v))
    | none =>
      match e.assign name v with
      | some e' => some (.mk (some e') vs)
      | none => none

/-! ## Static types and plain runtime values, `src/src/types/value.rs` -/

/-- `Type`: the structural types of ono (`src/src/types/value.rs`). -/
inductive Ty where
  | text
  | number
  | bool
  | tuple (inners : List Ty)
  deriving Repr

/-- `Value` of `src/src/types/value.rs` (and, per the identical module layout
of the onoi crate, the value type its interpreter runs on): mirrors `Ty`
at runtime. -/
inductive Val where
  | bool (b : Bool)
  | text (s : String)
  | number (n : Rat)
  | tuple (inners : List Val)
  deriving Repr

mutual
/-- Structural `Ty` equality, mirroring the derived `PartialEq`. -/
def Ty.beq : Ty → Ty → Bool
  | .text, .text => true
  | .number, .number => true
  | .bool, .bool => true
  | .tuple xs, .tuple ys => Ty.beqList xs ys
  | _, _ => false

/-- Pointwise `Ty` list equality. -/
def Ty.beqList : List Ty → List Ty → Bool
  | [], [] => true
  | x :: xs, y :: ys => Ty.beq x y && Ty.beqList xs ys
  | _, _ => false
end

mutual
/-- Structural `Val` equality, mirroring the derived `PartialEq`. -/
def Val.beq : Val → Val → Bool
  | .bool a, .bool b => a == b
  | .text a, .text b => a == b
  | .number a, .number b => a == b
  | .tuple xs, .tuple ys => Val.beqList xs ys
  | _, _ => false

/-- Pointwise `Val` list equality. -/
def Val.beqList : List Val → List Val → Bool
  | [], [] => true
  | x :: xs, y :: ys => Val.beq x y && Val.beqList xs ys
  | _, _ => false
end

/-- `Value::is_truthy` (`src/src/types/value.rs:54-60`): a tuple is truthy
iff it has no inner values, a boolean is its own truth value, and numbers
and text are always truthy. -/
def Val.is_truthy : Val → Bool
  | .tuple inner => inner.length == 0
  | .bool val => val
  | _ => true

/-- `impl From<&Token> for Type` (`src/src/types/value.rs`). -/
def Ty.fromToken (token : Token) : Ty :=
  match token.kind with
  | .NUMBER _ => .number
  | .STRING _ => .text
  | .FALSE => .bool
  | .TRUE => .bool
  | _ => .tuple []

/-- `impl From<&Token> for Value` (`src/src/types/value.rs`). -/
def Val.fromToken (token : Token) : Val :=
  match token.kind with
  | .NUMBER num => .number num
  | .STRING s => .text s
  | .FALSE => .bool false
  | .TRUE => .bool true
  | _ => .tuple []

/-! ## The main crate, `src/src/` -/

namespace Ono

/-- `Expr` of `src/src/ast.rs`. -/
inductive Expr where
  | literal (value : Token)
  | var (name : Token)
  | assign (name : Token) (expr : Expr)
  | unary (operator : Token) (expr : Expr)
  | binary (operator : Token) (left : Expr) (right : Expr)
  | logical (operator : Token) (left : Expr) (right : Expr)
  | group (expr : Expr)
  | rangeE (token : Token) (fromE : Expr) (step_by : Option Expr) (toE : Expr)
  | call (callee : Expr) (paren : Token) (arguments : List Expr)

/-- `Stmt` of `src/src/ast.rs`. -/
inductive Stmt where
  | expression (expr : Expr)
  | print (expr : Expr)
  | letStmt (name : Token) (initializer : Expr)
  | block (statements : List Stmt)
  | ifStmt (condition : Expr) (thenBr : Stmt) (eelse : Option Stmt)
  | whileStmt (condition : Expr) (body : Stmt)
  | forStmt (identifier : Token) (range : Expr) (body : Stmt)
  | function (name : Token) (params : List Token) (body : List Stmt)
  | ret (keyword : Token) (expr : Option Expr)

/-- `Value` of `src/src/interpreter.rs`: runtime values, including
`Function` values that carry their body and captured closure, and
native functions (only their name and parameter list matter here; the
single native, `clock`, reads the wall clock, which the embedding
abstracts).  The `closure` field is an `Environment<Value>` exactly as in
`src/src/functions.rs`. -/
inductive Value where
  | nativeFunction (name : String) (params : List String)
  | function (name : Token) (params : List String) (body : List Stmt)
      (closure : Environment Value)
  | range (toN : Rat) (fromN : Rat) (step_by : Rat)
  | bool (b : Bool)
  | text (s : String)
  | number (n : Rat)
  | null

/-- `Value::is_equal` (`src/src/interpreter.rs:23-58`).  Functions compare by
name only; closures are not inspected. -/
def Value.is_equal : Value → Value → Bool
  | .nativeFunction n1 _, .nativeFunction n2 _ => n1 == n2
  | .nativeFunction _ _, _ => false
  | .function n1 _ _ _, .function n2 _ _ _ => n1.lexeme == n2.lexeme
  | .function _ _ _ _, _ => false
  | .range t1 f1 s1, .range t2 f2 s2 => t1 == t2 && f1 == f2 && s2 == s1
  | .range _ _ _, _ => false
  | .bool a, .bool b => a == b
  | .bool _, _ => false
  | .text a, .text b => a == b
  | .text _, _ => false
  | .number a, .number b => a == b
  | .number _, _ => false
  | .null, .null => true
  | .null, _ => false

/-- `Value::is_truthy` (`src/src/interpreter.rs:60-66`): `null` and `false`
are falsy, everything else truthy. -/
def Value.is_truthy : Value → Bool
  | .null => false
  | .bool val => val
  | _ => true

/-- `impl From<&Token> for Value` (`src/src/interpreter.rs:85-95`). -/
def Value.fromToken (token : Token) : Value :=
  match token.kind with
  | .NUMBER num => .number num
  | .STRING s => .text s
  | .FALSE => .bool false
  | .TRUE => .bool true
  | _ => .null

/-- `SyntaxError` of `src/src/error.rs`. -/
inductive SyntaxErr where
  | S001 | S002 | S003 | S004 | S005 | S006 | S007 | S008 | S009
  | S010 (keyword : String)
  | S011

/-- `TypeError` of `src/src/error.rs`.  `T004` (calling a non-callable) and
`T005` (arity mismatch) are constructed by `src/src/interpreter.rs` but the
dumped `error.rs` predates them; their payloads are taken from the
construction sites (`TypeError::T004 { callee }`,
`TypeError::T005 { expected, received }`) and the spec's §7 taxonomy. -/
inductive TypeErr where
  | T001 (operand : Value)
  | T002 (left : Value) (right : Value)
  | T003 (fromV : Value) (toV : Value) (step_by : Option Value)
  | T004 (callee : Value)
  | T005 (expected : Nat) (received : Nat)

/-- `RuntimeError` of `src/src/error.rs`; `R004` (clock failure) is
constructed by `src/src/functions.rs`. -/
inductive RuntimeErr where
  | R001
  | R002
  | R003 (fromN : Rat) (toN : Rat) (step_by : Rat)
  | R004

/-- `ErrorKind` of `src/src/error.rs`.  The `ret` variant models
`ErrorKind::Return(Value)`, which `src/src/functions.rs:49` matches on and
`src/src/interpreter.rs:475` constructs via `Error::return_error`; the spec
(§4.5) describes it as the distinguished control-flow signal for `return`. -/
inductive ErrorKind where
  | syn (e : SyntaxErr)
  | typ (e : TypeErr)
  | run (e : RuntimeErr)
  | ret (value : Value)

/-- The standard ono error of `src/src/error.rs`: kind plus offending token
plus presentation-only enrichment fields. -/
structure Error where
  kind : ErrorKind
  token : Token
  file : Option String
  line_src : Option String

/-- `Error::syntax_error`. -/
def Error.syntax_err (errno : SyntaxErr) (token : Token) : Error :=
  { kind := .syn errno, token := token, file := none, line_src := none }

/-- `Error::type_error`. -/
def Error.type_err (errno : TypeErr) (token : Token) : Error :=
  { kind := .typ errno, token := token, file := none, line_src := none }

/-- `Error::runtime_error`. -/
def Error.runtime_err (errno : RuntimeErr) (token : Token) : Error :=
  { kind := .run errno, token := token, file := none, line_src := none }

/-- `Error::return_error` (constructed at `src/src/interpreter.rs:475`): the
return signal carrying the returned value and the `return` keyword token. -/
def Error.return_err (value : Value) (keyword : Token) : Error :=
  { kind := .ret value, token := keyword, file := none, line_src := none }

/-- `functions::create_global_environment`: a root scope holding the native
`clock` function. -/
def create_global_environment : Environment Value :=
  (Environment.new Value).define "clock" (.nativeFunction "clock" [])

/-- Outcome of evaluating with the tree-walking interpreter: a value/unit
plus the interpreter's environment afterwards, an `Err` (also carrying the
environment, which Rust's `?` leaves as-is mid-way), a Rust panic
(`fatal`), or fuel exhaustion (`timeout`, covering divergence). -/
inductive Res (α : Type) where
  | ok (a : α) (env : Environment Value)
  | err (e : Error) (env : Environment Value)
  | fatal
  | timeout

/-- `Interpreter::unary` (`src/src/interpreter.rs:139-158`). -/
def Interpreter.unary (operator : Token) (value : Value) : Except Error Value :=
  match operator.kind with
  | .BANG =>
    match value with
    | .null => .ok (.bool false)
    | .bool v => .ok (.bool (!v))
    | _ => .error (Error.type_err (.T001 value) operator)
  | .MINUS =>
    match value with
    | .number v => .ok (.number (-v))
    | _ => .error (Error.type_err (.T001 value) operator)
  | _ => .error (Error.syntax_err .S001 operator)

/-- `Interpreter::binary` (`src/src/interpreter.rs:160-240`), including the
zero-divisor guard on `/`. -/
def Interpreter.binary (operator : Token) (left right : Value) : Except Error Value :=
  let mismatch_error : Except Error Value :=
    .error (Error.type_err (.T002 left right) operator)
  match operator.kind with
  | .PLUS =>
    match left with
    | .number l =>
      match right with
      | .number r => .ok (.number (l + r))
      | _ => mismatch_error
    | .text l =>
      match right with
      | .text r => .ok (.text (l ++ r))
      | _ => mismatch_error
    | _ => mismatch_error
  | .MINUS =>
    match left with
    | .number l =>
      match right with
      | .number r => .ok (.number (l - r))
      | _ => mismatch_error
    | _ => mismatch_error
  | .STAR =>
    match left with
    | .number l =>
      match right with
      | .number r => .ok (.number (l * r))
      | _ => mismatch_error
    | _ => mismatch_error
  | .SLASH =>
    match left with
    | .number l =>
      match right with
      | .number r =>
        if r ≠ 0 then .ok (.number (l / r))
        else .error (Error.runtime_err .R002 operator)
      | _ => mismatch_error
    | _ => mismatch_error
  | .GREATER =>
    match left with
    | .number l =>
      match right with
      | .number r => .ok (.bool (l > r))
      | _ => mismatch_error
    | _ => mismatch_error
  | .GREATEREQUAL =>
    match left with
    | .number l =>
      match right with
      | .number r => .ok (.bool (l ≥ r))
      | _ => mismatch_error
    | _ => mismatch_error
  | .EQUALEQUAL => .ok (.bool (left.is_equal right))
  | .BANGEQUAL => .ok (.bool (!left.is_equal right))
  | .LESS =>
    match left with
    | .number l =>
      match right with
      | .number r => .ok (.bool (l < r))
      | _ => mismatch_error
    | _ => mismatch_error
  | .LESSEQUAL =>
    match left with
    | .number l =>
      match right with
      | .number r => .ok (.bool (l ≤ r))
      | _ => mismatch_error
    | _ => mismatch_error
  | _ => .error (Error.syntax_err .S001 operator)

/-- Parameter binding at call entry (`src/src/functions.rs:41-43`): the
arguments are `define`d one by one into the installed closure scope. -/
def bindParams (closure : Environment Value) :
    List String → List Value → Environment Value
  | [], _ => closure
  | _, [] => closure
  | p :: ps, a :: as_ => bindParams (closure.define p a) ps as_

mutual

/-- `Interpreter::visit_expression` (`src/src/interpreter.rs:265-390`),
fuel-indexed. -/
def evalExpr : Nat → Environment Value → Expr → Res Value
  | 0, _, _ => .timeout
  | fuel + 1, σ, e =>
    match e with
    | .literal value => .ok (Value.fromToken value) σ
    | .var name =>
      match σ.get name.lexeme with
      | some value => .ok value σ
      | none => .err (Error.runtime_err .R001 name) σ
    | .assign name expr =>
      match evalExpr fuel σ expr with
      | .ok val σ₁ =>
        match σ₁.assign name.lexeme val with
        | some σ₂ => .ok val σ₂
        | none => .err (Error.runtime_err .R001 name) σ₁
      | .err er σ₁ => .err er σ₁
      | .fatal => .fatal
      | .timeout => .timeout
    | .unary operator expr =>
      match evalExpr fuel σ expr with
      | .ok val σ₁ =>
        match Interpreter.unary operator val with
        | .ok v => .ok v σ₁
        | .error er => .err er σ₁
      | .err er σ₁ => .err er σ₁
      | .fatal => .fatal
      | .timeout => .timeout
    | .binary operator left right =>
      match evalExpr fuel σ left with
      | .ok l σ₁ =>
        match evalExpr fuel σ₁ right with
        | .ok r σ₂ =>
          match Interpreter.binary operator l r with
          | .ok v => .ok v σ₂
          | .error er => .err er σ₂
        | .err er σ₂ => .err er σ₂
        | .fatal => .fatal
        | .timeout => .timeout
      | .err er σ₁ => .err er σ₁
      | .fatal => .fatal
      | .timeout => .timeout
    | .group expr => evalExpr fuel σ expr
    | .logical operator left right =>
      match evalExpr fuel σ left with
      | .ok l σ₁ =>
        match operator.kind, l.is_truthy with
        | .OR, true => .ok l σ₁
        | .AND, false => .ok l σ₁
        | _, _ => evalExpr fuel σ₁ right
      | .err er σ₁ => .err er σ₁
      | .fatal => .fatal
      | .timeout => .timeout
    | .rangeE token fromE step_byE toE =>
      match evalExpr fuel σ fromE with
      | .ok fromV σ₁ =>
        match evalExpr fuel σ₁ toE with
        | .ok toV σ₂ =>
          match
            (match step_byE with
              | some sbe =>
                match evalExpr fuel σ₂ sbe with
                | .ok sv σ₃ => .ok (some sv) σ₃
                | .err er σ₃ => .err er σ₃
                | .fatal => .fatal
                | .timeout => .timeout
              | none => .ok none σ₂ : Res (Option Value)) with
          | .ok step_byV σ₃ =>
            match fromV with
            | .number from_num =>
              match toV with
              | .number to_num =>
                match step_byV with
                | none => .ok (.range to_num from_num 1) σ₃
                | some value =>
                  match value with
                  | .number step_num => .ok (.range to_num from_num step_num) σ₃
                  | _ =>
                    .err (Error.type_err (.T003 fromV toV (some value)) token) σ₃
              | _ => .err (Error.type_err (.T003 fromV toV step_byV) token) σ₃
            | _ => .err (Error.type_err (.T003 fromV toV step_byV) token) σ₃
          | .err er σ₃ => .err er σ₃
          | .fatal => .fatal
          | .timeout => .timeout
        | .err er σ₂ => .err er σ₂
        | .fatal => .fatal
        | .timeout => .timeout
      | .err er σ₁ => .err er σ₁
      | .fatal => .fatal
      | .timeout => .timeout
    | .call callee paren arguments =>
      match evalExpr fuel σ callee with
      | .ok calleeV σ₁ =>
        match calleeV with
        | .function fname fparams fbody fclosure =>
          -- `prepare_func_args`: arity check first, then argument evaluation
          if arguments.length ≠ fparams.length then
            .err (Error.type_err (.T005 fparams.length arguments.length) paren) σ₁
          else
            match evalArgs fuel σ₁ arguments with
            | .ok args σ₂ =>
              match callFunction fuel fname fparams fbody fclosure args σ₂ with
              | .ok (v, _updatedClosure) σ₃ => .ok v σ₃
              | .err er σ₃ => .err er σ₃
              | .fatal => .fatal
              | .timeout => .timeout
            | .err er σ₂ => .err er σ₂
            | .fatal => .fatal
            | .timeout => .timeout
        | .nativeFunction _ nparams =>
          if arguments.length ≠ nparams.length then
            .err (Error.type_err (.T005 nparams.length arguments.length) paren) σ₁
          else
            match evalArgs fuel σ₁ arguments with
            -- the sole native is `clock`; its wall-clock reading is abstracted
            | .ok _ σ₂ => .ok (.number 0) σ₂
            | .err er σ₂ => .err er σ₂
            | .fatal => .fatal
            | .timeout => .timeout
        | calleeV => .err (Error.type_err (.T004 calleeV) paren) σ₁
      | .err er σ₁ => .err er σ₁
      | .fatal => .fatal
      | .timeout => .timeout

/-- Argument evaluation of `Interpreter::prepare_func_args`
(`src/src/interpreter.rs:242-262`): left-to-right, first error wins. -/
def evalArgs : Nat → Environment Value → List Expr → Res (List Value)
  | 0, _, _ => .timeout
  | fuel + 1, σ, args =>
    match args with
    | [] => .ok [] σ
    | a :: rest =>
      match evalExpr fuel σ a with
      | .ok v σ₁ =>
        match evalArgs fuel σ₁ rest with
        | .ok vs σ₂ => .ok (v :: vs) σ₂
        | .err er σ₂ => .err er σ₂
        | .fatal => .fatal
        | .timeout => .timeout
      | .err er σ₁ => .err er σ₁
      | .fatal => .fatal
      | .timeout => .timeout

/-- `Function::call` (`src/src/functions.rs:32-60`): save the caller's
environment, install the captured closure, bind the parameters, run the body
catching the return signal, store the body-final environment back into
`self.closure` (returned as the second component of the pair — the caller in
`visit_expression` drops it), and restore the caller's environment.  On a
non-return error the function propagates the error without restoring. -/
def callFunction : Nat → Token → List String → List Stmt → Environment Value →
    List Value → Environment Value → Res (Value × Environment Value)
  | 0, _, _, _, _, _, _ => .timeout
  | fuel + 1, _fname, fparams, fbody, fclosure, args, σ =>
    let prev_env := σ
    let bodyEnv := bindParams fclosure fparams args
    match execBody fuel bodyEnv fbody with
    | .ok return_value σEnd => .ok (return_value, σEnd) prev_env
    | .err er σEnd => .err er σEnd
    | .fatal => .fatal
    | .timeout => .timeout

/-- The body loop of `Function::call`: run statements until a return signal
(`ErrorKind::Return`) breaks out with the returned value; a non-return error
propagates; falling off the end yields `Value::Null`. -/
def execBody : Nat → Environment Value → List Stmt → Res Value
  | 0, _, _ => .timeout
  | fuel + 1, σ, stmts =>
    match stmts with
    | [] => .ok .null σ
    | s :: rest =>
      match execStmt fuel σ s with
      | .ok _ σ₁ => execBody fuel σ₁ rest
      | .err er σ₁ =>
        match er.kind with
        | .ret value => .ok value σ₁
        | _ => .err er σ₁
      | .fatal => .fatal
      | .timeout => .timeout

/-- `Interpreter::visit_statement` (`src/src/interpreter.rs:392-480`),
fuel-indexed. -/
def execStmt : Nat → Environment Value → Stmt → Res Unit
  | 0, _, _ => .timeout
  | fuel + 1, σ, s =>
    match s with
    | .expression expr =>
      match evalExpr fuel σ expr with
      | .ok _ σ₁ => .ok () σ₁
      | .err er σ₁ => .err er σ₁
      | .fatal => .fatal
      | .timeout => .timeout
    | .print expr =>
      -- `println!` output is outside the model; the evaluation itself is kept
      match evalExpr fuel σ expr with
      | .ok _ σ₁ => .ok () σ₁
      | .err er σ₁ => .err er σ₁
      | .fatal => .fatal
      | .timeout => .timeout
    | .letStmt name initializer =>
      match evalExpr fuel σ initializer with
      | .ok value σ₁ => .ok () (σ₁.define name.lexeme value)
      | .err er σ₁ => .err er σ₁
      | .fatal => .fatal
      | .timeout => .timeout
    | .block statements =>
      match execStmts fuel σ.nest statements with
      | .ok _ σ₁ => .ok () σ₁.pop
      | .err er σ₁ => .err er σ₁
      | .fatal => .fatal
      | .timeout => .timeout
    | .ifStmt condition thenBr eelse =>
      match evalExpr fuel σ condition with
      | .ok c σ₁ =>
        if c.is_equal (.bool true) then execStmt fuel σ₁ thenBr
        else
          match eelse with
          | some els => execStmt fuel σ₁ els
          | none => .ok () σ₁
      | .err er σ₁ => .err er σ₁
      | .fatal => .fatal
      | .timeout => .timeout
    | .whileStmt condition body => whileLoop fuel σ condition body
    | .forStmt identifier range body =>
      match evalExpr fuel σ range with
      | .ok v σ₁ =>
        match v with
        | .range toN fromN step_by =>
          if (step_by > 0 ∧ toN ≤ fromN) ∨ (step_by < 0 ∧ fromN ≤ toN) then
            match range with
            | .rangeE token _ _ _ =>
              .err (Error.runtime_err (.R003 fromN toN step_by) token) σ₁
            | _ => .fatal  -- `panic!("Stmt::For created with faulty range …")`
          else
            let num := min toN fromN
            let dest := max toN fromN
            let σ₂ := σ₁.define identifier.lexeme (.number num)
            forLoop fuel σ₂ identifier.lexeme num dest step_by body
        | _ => .ok () σ₁  -- the `if let` falls through silently
      | .err er σ₁ => .err er σ₁
      | .fatal => .fatal
      | .timeout => .timeout
    | .function name params body =>
      .ok ()
        (σ.define name.lexeme
          (.function name (params.map (fun p => p.lexeme)) body σ.new_nested))
    | .ret keyword expr =>
      match expr with
      | some e =>
        match evalExpr fuel σ e with
        | .ok value σ₁ => .err (Error.return_err value keyword) σ₁
        | .err er σ₁ => .err er σ₁
        | .fatal => .fatal
        | .timeout => .timeout
      | none => .err (Error.return_err .null keyword) σ

/-- The statement loop shared by `Interpreter::interpret` and `Stmt::Block`:
run statements in order, propagating the first error. -/
def execStmts : Nat → Environment Value → List Stmt → Res Unit
  | 0, _, _ => .timeout
  | fuel + 1, σ, stmts =>
    match stmts with
    | [] => .ok () σ
    | s :: rest =>
      match execStmt fuel σ s with
      | .ok _ σ₁ => execStmts fuel σ₁ rest
      | .err er σ₁ => .err er σ₁
      | .fatal => .fatal
      | .timeout => .timeout

/-- The `while num < dest` loop of `Stmt::For`
(`src/src/interpreter.rs:445-455`): assign the loop variable (`.unwrap()` —
a failure is a panic), run the body, advance by `step_by`. -/
def forLoop : Nat → Environment Value → String → Rat → Rat → Rat → Stmt → Res Unit
  | 0, _, _, _, _, _, _ => .timeout
  | fuel + 1, σ, name, num, dest, step_by, body =>
    if num < dest then
      match σ.assign name (.number num) with
      | some σ₁ =>
        match execStmt fuel σ₁ body with
        | .ok _ σ₂ => forLoop fuel σ₂ name (num + step_by) dest step_by body
        | .err er σ₂ => .err er σ₂
        | .fatal => .fatal
        | .timeout => .timeout
      | none => .fatal
    else .ok () σ

/-- The `while` loop of `Stmt::While`: re-evaluate the condition each
iteration, run the body while it is truthy. -/
def whileLoop : Nat → Environment Value → Expr → Stmt → Res Unit
  | 0, _, _, _ => .timeout
  | fuel + 1, σ, condition, body =>
    match evalExpr fuel σ condition with
    | .ok c σ₁ =>
      if c.is_truthy then
        match execStmt fuel σ₁ body with
        | .ok _ σ₂ => whileLoop fuel σ₂ condition body
        | .err er σ₂ => .err er σ₂
        | .fatal => .fatal
        | .timeout => .timeout
      else .ok () σ₁
    | .err er σ₁ => .err er σ₁
    | .fatal => .fatal
    | .timeout => .timeout

end

/-- `Interpreter::interpret` (`src/src/interpreter.rs:132-137`): run the
statements in order, stopping at (and returning) the first error. -/
def interpret (fuel : Nat) (σ : Environment Value) (statements : List Stmt) :
    Res Unit :=
  execStmts fuel σ statements

end Ono

/-! ## The library crate, `src/onoi/` -/

namespace Onoi

/-- `SyntaxError` of `src/onoi/src/error.rs`. -/
inductive SyntaxErr where
  | S001 | S002 | S003 | S004
  | S005 (kind : TokenKind)
  | S006 | S007 | S008 | S009 | S010

/-- `TypeError` of `src/onoi/src/error.rs`: operand mismatches, declaration
mismatches, the undefined-variable error `T004`, and assignment mismatch. -/
inductive TypeErr where
  | T001 (left : Ty) (right : Ty)
  | T002 (operand : Ty)
  | T003 (declared_as : Ty) (initialized_as : Ty)
  | T004
  | T005 (declared_as : Ty) (assigned_to : Ty)

/-- `RuntimeError` of `src/onoi/src/error.rs`: division by zero is the sole
variant. -/
inductive RuntimeErr where
  | R001

/-- `ErrorKind` of `src/onoi/src/error.rs`. -/
inductive ErrorKind where
  | syn (e : SyntaxErr)
  | typ (e : TypeErr)
  | run (e : RuntimeErr)

/-- The standard onoi error: kind, offending token, presentation fields. -/
structure Error where
  kind : ErrorKind
  token : Token
  file : Option String
  line_src : Option String

/-- `Error::syntax_error`. -/
def Error.syntax_err (errno : SyntaxErr) (token : Token) : Error :=
  { kind := .syn errno, token := token, file := none, line_src := none }

/-- `Error::type_error`. -/
def Error.type_err (errno : TypeErr) (token : Token) : Error :=
  { kind := .typ errno, token := token, file := none, line_src := none }

/-- `Error::runtime_error`. -/
def Error.runtime_err (errno : RuntimeErr) (token : Token) : Error :=
  { kind := .run errno, token := token, file := none, line_src := none }

/-- The call sites of `language_error` (`src/onoi/src/error.rs:114`), which
panics: one reason per distinct message in `typechecker.rs` and
`interpreter.rs`.  A panic is a defensive abort, not a user-facing error. -/
inductive PanicReason where
  | unknownUnaryOperator
  | unknownBinaryOperator (lexeme : String)
  | nonNegateableValue
  | undefinedVariable
  | assignTargetNotInScope

mutual
/-- `Expr` of `src/onoi/src/types/expr.rs`, restricted to the constructors
the dumped typechecker and interpreter have code for (the `If`/`While`
variants of the later AST revision are handled by neither and are
omitted). -/
inductive Expr where
  | literal (value : Token)
  | tuple (inners : List Expr)
  | unary (operator : Token) (expr : Expr)
  | binary (operator : Token) (left : Expr) (right : Expr)
  | logical (operator : Token) (left : Expr) (right : Expr)
  | group (expr : Expr)
  | var (name : Token)
  | assign (name : Token) (expr : Expr)
  | block (statements : List Stmt) (finallyE : Option Expr)

/-- `Stmt` of the onoi crate: expression statements and (optionally
annotated) `let` declarations. -/
inductive Stmt where
  | expression (expr : Expr)
  | letStmt (name : Token) (ttype : Option Ty) (initializer : Expr)
end

/-- Outcome of a typechecker traversal: a result plus the `Environment<Type>`
scope afterwards, an error (Rust `?` leaves the scope as-is), a panic
(`language_error`), or fuel exhaustion. -/
inductive TRes (α : Type) where
  | ok (a : α) (σ : Environment Ty)
  | err (e : Error) (σ : Environment Ty)
  | abort (r : PanicReason)
  | timeout

mutual

/-- `Typechecker::visit_expression` (`src/onoi/src/typechecker.rs:65-200`),
fuel-indexed. -/
def checkExpr : Nat → Environment Ty → Expr → TRes Ty
  | 0, _, _ => .timeout
  | fuel + 1, σ, e =>
    match e with
    | .literal value => .ok (Ty.fromToken value) σ
    | .group expr => checkExpr fuel σ expr
    | .tuple inners =>
      match checkExprList fuel σ inners with
      | .ok ts σ₁ => .ok (.tuple ts) σ₁
      | .err er σ₁ => .err er σ₁
      | .abort r => .abort r
      | .timeout => .timeout
    | .logical operator left right =>
      match checkExpr fuel σ left with
      | .ok tl σ₁ =>
        match checkExpr fuel σ₁ right with
        | .ok tr σ₂ =>
          match tl, tr with
          | .bool, .bool => .ok .bool σ₂
          | tl, tr => .err (Error.type_err (.T001 tl tr) operator) σ₂
        | .err er σ₂ => .err er σ₂
        | .abort r => .abort r
        | .timeout => .timeout
      | .err er σ₁ => .err er σ₁
      | .abort r => .abort r
      | .timeout => .timeout
    | .unary operator expr =>
      match checkExpr fuel σ expr with
      | .ok operand σ₁ =>
        match operator.kind with
        | .BANG =>
          match operand with
          | .bool => .ok .bool σ₁
          | _ => .err (Error.type_err (.T002 operand) operator) σ₁
        | .MINUS =>
          match operand with
          | .number => .ok .number σ₁
          | _ => .err (Error.type_err (.T002 operand) operator) σ₁
        | _ => .abort .unknownUnaryOperator
      | .err er σ₁ => .err er σ₁
      | .abort r => .abort r
      | .timeout => .timeout
    | .binary operator left right =>
      match checkExpr fuel σ left with
      | .ok tl σ₁ =>
        match checkExpr fuel σ₁ right with
        | .ok tr σ₂ =>
          match operator.kind with
          | .PLUS =>
            match tl, tr with
            | .number, .number => .ok .number σ₂
            | .text, .text => .ok .text σ₂
            | tl, tr => .err (Error.type_err (.T001 tl tr) operator) σ₂
          | .MINUS | .STAR | .SLASH =>
            if !(Ty.beq tl .number) || !(Ty.beq tr .number) then
              .err (Error.type_err (.T001 tl tr) operator) σ₂
            else .ok .number σ₂
          | .LESS | .LESSEQUAL | .GREATER | .GREATEREQUAL =>
            if !(Ty.beq tl .number) || !(Ty.beq tr .number) then
              .err (Error.type_err (.T001 tl tr) operator) σ₂
            else .ok .bool σ₂
          | .EQUALEQUAL | .BANGEQUAL =>
            if !(Ty.beq tl tr) then
              .err (Error.type_err (.T001 tl tr) operator) σ₂
            else .ok .bool σ₂
          | _ => .abort (.unknownBinaryOperator operator.lexeme)
        | .err er σ₂ => .err er σ₂
        | .abort r => .abort r
        | .timeout => .timeout
      | .err er σ₁ => .err er σ₁
      | .abort r => .abort r
      | .timeout => .timeout
    | .var name =>
      match σ.get name.lexeme with
      | some ttype => .ok ttype σ
      | none => .err (Error.type_err .T004 name) σ
    | .assign name expr =>
      match checkExpr fuel σ expr with
      | .ok assigned_to σ₁ =>
        match σ₁.get name.lexeme with
        | some declared_as =>
          if !(Ty.beq declared_as assigned_to) then
            .err (Error.type_err (.T005 declared_as assigned_to) name) σ₁
          else .ok assigned_to σ₁
        | none => .err (Error.type_err .T004 name) σ₁
      | .err er σ₁ => .err er σ₁
      | .abort r => .abort r
      | .timeout => .timeout
    | .block statements finallyE =>
      match checkStmtList fuel σ.new_nested statements with
      | .ok _ σ₁ =>
        match
          (match finallyE with
            | some expr => checkExpr fuel σ₁ expr
            | none => .ok (.tuple []) σ₁ : TRes Ty) with
        | .ok val σ₂ => .ok val σ₂.pop
        | .err er σ₂ => .err er σ₂
        | .abort r => .abort r
        | .timeout => .timeout
      | .err er σ₁ => .err er σ₁
      | .abort r => .abort r
      | .timeout => .timeout

/-- The `collect::<Result<Vec<Type>, Error>>` over tuple inners: stop at the
first error. -/
def checkExprList : Nat → Environment Ty → List Expr → TRes (List Ty)
  | 0, _, _ => .timeout
  | fuel + 1, σ, exprs =>
    match exprs with
    | [] => .ok [] σ
    | e :: rest =>
      match checkExpr fuel σ e with
      | .ok t σ₁ =>
        match checkExprList fuel σ₁ rest with
        | .ok ts σ₂ => .ok (t :: ts) σ₂
        | .err er σ₂ => .err er σ₂
        | .abort r => .abort r
        | .timeout => .timeout
      | .err er σ₁ => .err er σ₁
      | .abort r => .abort r
      | .timeout => .timeout

/-- `Typechecker::visit_statement` (`src/onoi/src/typechecker.rs:36-63`). -/
def checkStmt : Nat → Environment Ty → Stmt → TRes Unit
  | 0, _, _ => .timeout
  | fuel + 1, σ, s =>
    match s with
    | .expression expr =>
      match checkExpr fuel σ expr with
      | .ok _ σ₁ => .ok () σ₁
      | .err er σ₁ => .err er σ₁
      | .abort r => .abort r
      | .timeout => .timeout
    | .letStmt name ttype initializer =>
      match checkExpr fuel σ initializer with
      | .ok initializer_type σ₁ =>
        match ttype with
        | some tt =>
          if !(Ty.beq initializer_type tt) then
            .err (Error.type_err (.T003 tt initializer_type) name) σ₁
          else .ok () (σ₁.define name.lexeme initializer_type)
        | none => .ok () (σ₁.define name.lexeme initializer_type)
      | .err er σ₁ => .err er σ₁
      | .abort r => .abort r
      | .timeout => .timeout

/-- The statement loop inside `Expr::Block`: sequential, `?`-propagating. -/
def checkStmtList : Nat → Environment Ty → List Stmt → TRes Unit
  | 0, _, _ => .timeout
  | fuel + 1, σ, stmts =>
    match stmts with
    | [] => .ok () σ
    | s :: rest =>
      match checkStmt fuel σ s with
      | .ok _ σ₁ => checkStmtList fuel σ₁ rest
      | .err er σ₁ => .err er σ₁
      | .abort r => .abort r
      | .timeout => .timeout

end

/-- Outcome of `Typechecker::check` / `Interpreter::interpret` style loops
that collect one error per top-level statement. -/
inductive LoopOut (σty : Type) where
  | done (errors : List Error) (σ : σty)
  | abort (r : PanicReason)
  | timeout

/-- The error-collecting loop of `Typechecker::check`
(`src/onoi/src/typechecker.rs:18-34`): visit each statement, pushing the
statement's error (if any) and continuing with the next statement. -/
def checkLoop : Nat → Environment Ty → List Stmt → LoopOut (Environment Ty)
  | 0, _, _ => .timeout
  | fuel + 1, σ, stmts =>
    match stmts with
    | [] => .done [] σ
    | s :: rest =>
      match checkStmt fuel σ s with
      | .ok _ σ₁ => checkLoop fuel σ₁ rest
      | .err er σ₁ =>
        match checkLoop fuel σ₁ rest with
        | .done l σ₂ => .done (er :: l) σ₂
        | .abort r => .abort r
        | .timeout => .timeout
      | .abort r => .abort r
      | .timeout => .timeout

/-- `Typechecker::check` run from a fresh scope: `Ok(())` iff no errors were
collected (represented by the collected error list being empty). -/
def check (fuel : Nat) (statements : List Stmt) : LoopOut (Environment Ty) :=
  checkLoop fuel (Environment.new Ty) statements

/-- Outcome of an interpreter traversal over `Environment<Value>`. -/
inductive IRes (α : Type) where
  | ok (a : α) (σ : Environment Val)
  | err (e : Error) (σ : Environment Val)
  | abort (r : PanicReason)
  | timeout

mutual

/-- `Interpreter::visit_expression` (`src/onoi/src/interpreter.rs:55-154`),
fuel-indexed.  The nested early-return chain of the `Binary` arm is
flattened into one match: number·number pairs answer the eight arithmetic
and comparison operators, text·text answers `+`, `==`/`!=` compare any two
values structurally, and every remaining combination reaches the
`language_error` panic.  The `Block` arm is *modelled from the spec*
(§4.3/§4.5): the dumped interpreter predates the `Block` expression, so its
evaluation is taken from the spec's words — push a nested frame, run the
statements, produce the trailing expression's value (or unit), pop on normal
exit — mirroring the typechecker's `Block` arm with values in place of
types. -/
def evalExprO : Nat → Environment Val → Expr → IRes Val
  | 0, _, _ => .timeout
  | fuel + 1, σ, e =>
    match e with
    | .literal value => .ok (Val.fromToken value) σ
    | .group expr => evalExprO fuel σ expr
    | .tuple inners =>
      match evalExprListO fuel σ inners with
      | .ok vs σ₁ => .ok (.tuple vs) σ₁
      | .err er σ₁ => .err er σ₁
      | .abort r => .abort r
      | .timeout => .timeout
    | .logical operator left right =>
      match evalExprO fuel σ left with
      | .ok l σ₁ =>
        match operator.kind, l.is_truthy with
        | .OR, true => .ok l σ₁
        | .AND, false => .ok l σ₁
        | _, _ => evalExprO fuel σ₁ right
      | .err er σ₁ => .err er σ₁
      | .abort r => .abort r
      | .timeout => .timeout
    | .unary operator expr =>
      match evalExprO fuel σ expr with
      | .ok val σ₁ =>
        match operator.kind with
        | .BANG =>
          match val with
          | .bool v => .ok (.bool (!v)) σ₁
          | _ => .abort .nonNegateableValue
        | .MINUS =>
          match val with
          | .number v => .ok (.number (-v)) σ₁
          | _ => .abort .nonNegateableValue
        | _ => .abort .unknownUnaryOperator
      | .err er σ₁ => .err er σ₁
      | .abort r => .abort r
      | .timeout => .timeout
    | .binary operator left right =>
      match evalExprO fuel σ left with
      | .ok l σ₁ =>
        match evalExprO fuel σ₁ right with
        | .ok r σ₂ =>
          match l, r with
          | .number ln, .number rn =>
            match operator.kind with
            | .PLUS => .ok (.number (ln + rn)) σ₂
            | .MINUS => .ok (.number (ln - rn)) σ₂
            | .STAR => .ok (.number (ln * rn)) σ₂
            | .SLASH =>
              if rn == 0 then .err (Error.runtime_err .R001 operator) σ₂
              else .ok (.number (ln / rn)) σ₂
            | .LESS => .ok (.bool (ln < rn)) σ₂
            | .LESSEQUAL => .ok (.bool (ln ≤ rn)) σ₂
            | .GREATER => .ok (.bool (ln > rn)) σ₂
            | .GREATEREQUAL => .ok (.bool (ln ≥ rn)) σ₂
            | .EQUALEQUAL => .ok (.bool (Val.beq l r)) σ₂
            | .BANGEQUAL => .ok (.bool (!Val.beq l r)) σ₂
            | _ => .abort (.unknownBinaryOperator operator.lexeme)
          | .text ls, .text rs =>
            match operator.kind with
            | .PLUS => .ok (.text (ls ++ rs)) σ₂
            | .EQUALEQUAL => .ok (.bool (Val.beq l r)) σ₂
            | .BANGEQUAL => .ok (.bool (!Val.beq l r)) σ₂
            | _ => .abort (.unknownBinaryOperator operator.lexeme)
          | _, _ =>
            match operator.kind with
            | .EQUALEQUAL => .ok (.bool (Val.beq l r)) σ₂
            | .BANGEQUAL => .ok (.bool (!Val.beq l r)) σ₂
            | _ => .abort (.unknownBinaryOperator operator.lexeme)
        | .err er σ₂ => .err er σ₂
        | .abort r => .abort r
        | .timeout => .timeout
      | .err er σ₁ => .err er σ₁
      | .abort r => .abort r
      | .timeout => .timeout
    | .var name =>
      match σ.get name.lexeme with
      | some value => .ok value σ
      | none => .abort .undefinedVariable
    | .assign name expr =>
      match evalExprO fuel σ expr with
      | .ok value σ₁ =>
        match σ₁.assign name.lexeme value with
        | some σ₂ => .ok value σ₂
        | none => .abort .assignTargetNotInScope
      | .err er σ₁ => .err er σ₁
      | .abort r => .abort r
      | .timeout => .timeout
    | .block statements finallyE =>
      match execStmtListO fuel σ.new_nested statements with
      | .ok _ σ₁ =>
        match
          (match finallyE with
            | some expr => evalExprO fuel σ₁ expr
            | none => .ok (.tuple []) σ₁ : IRes Val) with
        | .ok val σ₂ => .ok val σ₂.pop
        | .err er σ₂ => .err er σ₂
        | .abort r => .abort r
        | .timeout => .timeout
      | .err er σ₁ => .err er σ₁
      | .abort r => .abort r
      | .timeout => .timeout

/-- The `collect::<Result<Vec<Value>, Error>>` over tuple inners. -/
def evalExprListO : Nat → Environment Val → List Expr → IRes (List Val)
  | 0, _, _ => .timeout
  | fuel + 1, σ, exprs =>
    match exprs with
    | [] => .ok [] σ
    | e :: rest =>
      match evalExprO fuel σ e with
      | .ok v σ₁ =>
        match evalExprListO fuel σ₁ rest with
        | .ok vs σ₂ => .ok (v :: vs) σ₂
        | .err er σ₂ => .err er σ₂
        | .abort r => .abort r
        | .timeout => .timeout
      | .err er σ₁ => .err er σ₁
      | .abort r => .abort r
      | .timeout => .timeout

/-- `Interpreter::visit_statement` (`src/onoi/src/interpreter.rs:37-53`). -/
def execStmtO : Nat → Environment Val → Stmt → IRes Unit
  | 0, _, _ => .timeout
  | fuel + 1, σ, s =>
    match s with
    | .expression expr =>
      match evalExprO fuel σ expr with
      | .ok _ σ₁ => .ok () σ₁
      | .err er σ₁ => .err er σ₁
      | .abort r => .abort r
      | .timeout => .timeout
    | .letStmt name _ initializer =>
      match evalExprO fuel σ initializer with
      | .ok value σ₁ => .ok () (σ₁.define name.lexeme value)
      | .err er σ₁ => .err er σ₁
      | .abort r => .abort r
      | .timeout => .timeout

/-- The statement loop of the (spec-modelled) `Block` expression. -/
def execStmtListO : Nat → Environment Val → List Stmt → IRes Unit
  | 0, _, _ => .timeout
  | fuel + 1, σ, stmts =>
    match stmts with
    | [] => .ok () σ
    | s :: rest =>
      match execStmtO fuel σ s with
      | .ok _ σ₁ => execStmtListO fuel σ₁ rest
      | .err er σ₁ => .err er σ₁
      | .abort r => .abort r
      | .timeout => .timeout

end

/-- The error-collecting loop of `Interpreter::interpret`
(`src/onoi/src/interpreter.rs:18-35`): visit each statement, pushing the
statement's error (if any) and continuing with the next statement. -/
def interpLoop : Nat → Environment Val → List Stmt → LoopOut (Environment Val)
  | 0, _, _ => .timeout
  | fuel + 1, σ, stmts =>
    match stmts with
    | [] => .done [] σ
    | s :: rest =>
      match execStmtO fuel σ s with
      | .ok _ σ₁ => interpLoop fuel σ₁ rest
      | .err er σ₁ =>
        match interpLoop fuel σ₁ rest with
        | .done l σ₂ => .done (er :: l) σ₂
        | .abort r => .abort r
        | .timeout => .timeout
      | .abort r => .abort r
      | .timeout => .timeout

/-- `Interpreter::interpret` run from a fresh scope: `Ok(())` iff the
collected error list is empty. -/
def interpret (fuel : Nat) (statements : List Stmt) : LoopOut (Environment Val) :=
  interpLoop fuel (Environment.new Val) statements

/-! ### The recursive-descent parser, `src/onoi/src/parser.rs` -/

/-- Parser state: the token vector and the read cursor. -/
structure PState where
  tokens : List Token
  current : Nat

/-- Outcome of a parsing function: a value plus the new state, a syntax
error (Rust `?`), a panic (an `unwrap` of a missing token), or fuel
exhaustion. -/
inductive PRes (α : Type) where
  | ok (a : α) (st : PState)
  | err (e : Error) (st : PState)
  | panicked
  | timeout

/-- Sequencing that mirrors Rust's `?` on parser results. -/
def PRes.and_then {α β : Type} : PRes α → (α → PState → PRes β) → PRes β
  | .ok a st, f => f a st
  | .err e st, _ => .err e st
  | .panicked, _ => .panicked
  | .timeout, _ => .timeout

/-- `Parser::previous`: `tokens.get(current.max(1) - 1).unwrap()`. -/
def previousP (st : PState) : PRes Token :=
  match st.tokens.get? (st.current.max 1 - 1) with
  | some t => .ok t st
  | none => .panicked

/-- `Parser::peek`: `tokens.get(current).unwrap()`. -/
def peekP (st : PState) : PRes Token :=
  match st.tokens.get? st.current with
  | some t => .ok t st
  | none => .panicked

/-- `Parser::advance`: step the cursor, answer the token just passed. -/
def advanceP (st : PState) : PRes Token :=
  previousP { st with current := st.current + 1 }

/-- `Parser::is_at_end`: the lookahead is the EOF sentinel. -/
def isAtEndP (st : PState) : PRes Bool :=
  (peekP st).and_then fun t st₁ => .ok (t.kind == .EOF) st₁

/-- `Parser::check`: `false` at EOF, else discriminant comparison of the
lookahead against `kind`. -/
def checkKindP (st : PState) (kind : TokenKind) : PRes Bool :=
  (isAtEndP st).and_then fun atEnd st₁ =>
    if atEnd then .ok false st₁
    else (peekP st₁).and_then fun t st₂ => .ok (t.kind.is_same kind) st₂

/-- `Parser::consume`: advance past a matching lookahead, else do nothing. -/
def consumeP (st : PState) (kind : TokenKind) : PRes (Option Token) :=
  (checkKindP st kind).and_then fun b st₁ =>
    if b then (advanceP st₁).and_then fun t st₂ => .ok (some t) st₂
    else .ok none st₁

/-- `Parser::is_token_of_kind`: try each kind in order, advancing past the
first match. -/
def isTokenOfKindP (st : PState) : List TokenKind → PRes Bool
  | [] => .ok false st
  | kind :: rest =>
    (checkKindP st kind).and_then fun b st₁ =>
      if b then (advanceP st₁).and_then fun _ st₂ => .ok true st₂
      else isTokenOfKindP st₁ rest

/-- `Parser::synchronize`: discard tokens up to and including the next
semicolon, or up to EOF. -/
def synchronizeP : Nat → PState → PRes Unit
  | 0, _ => .timeout
  | fuel + 1, st =>
    (isAtEndP st).and_then fun atEnd st₁ =>
      if atEnd then .ok () st₁
      else
        (peekP st₁).and_then fun t st₂ =>
          match t.kind with
          | .SEMICOLON => (advanceP st₂).and_then fun _ st₃ => .ok () st₃
          | _ => (advanceP st₂).and_then fun _ st₃ => synchronizeP fuel st₃

mutual

/-- `Parser::declaration`: a `let` declaration or a statement. -/
def declarationP : Nat → PState → PRes Stmt
  | 0, _ => .timeout
  | fuel + 1, st =>
    (consumeP st .LET).and_then fun letTok st₁ =>
      match letTok with
      | some _ => letDeclarationP fuel st₁
      | none => statementP fuel st₁

/-- `Parser::let_declaration` (`src/onoi/src/parser.rs:76-112`). -/
def letDeclarationP : Nat → PState → PRes Stmt
  | 0, _ => .timeout
  | fuel + 1, st =>
    (consumeP st (.IDENTIFIER "")).and_then fun nameTok st₁ =>
      match nameTok with
      | none =>
        (previousP st₁).and_then fun prev st₂ =>
          .err (Error.syntax_err .S007 prev) st₂
      | some name =>
        (consumeP st₁ .COLON).and_then fun colonTok st₂ =>
          (match colonTok with
            | none => .ok none st₂
            | some _ =>
              (ttypeP fuel st₂).and_then fun t st₃ =>
                .ok (some t) st₃ : PRes (Option Ty)).and_then fun ttype st₃ =>
        (consumeP st₃ .EQUAL).and_then fun eqTok st₄ =>
          match eqTok with
          | none => .err (Error.syntax_err .S008 name) st₄
          | some _ =>
            (expressionP fuel st₄).and_then fun initializer st₅ =>
            (consumeP st₅ .SEMICOLON).and_then fun semi st₆ =>
              match semi with
              | some _ => .ok (.letStmt name ttype initializer) st₆
              | none =>
                (previousP st₆).and_then fun prev st₇ =>
                  .err (Error.syntax_err (.S005 .SEMICOLON) prev) st₇

/-- `Parser::statement`: only expression statements exist. -/
def statementP : Nat → PState → PRes Stmt
  | 0, _ => .timeout
  | fuel + 1, st => expressionStatementP fuel st

/-- `Parser::expression_statement`: an expression followed by `;`. -/
def expressionStatementP : Nat → PState → PRes Stmt
  | 0, _ => .timeout
  | fuel + 1, st =>
    (expressionP fuel st).and_then fun expr st₁ =>
    (consumeP st₁ .SEMICOLON).and_then fun semi st₂ =>
      match semi with
      | some _ => .ok (.expression expr) st₂
      | none =>
        (previousP st₂).and_then fun prev st₃ =>
          .err (Error.syntax_err (.S005 .SEMICOLON) prev) st₃

/-- `Parser::expression`: delegates to assignment. -/
def expressionP : Nat → PState → PRes Expr
  | 0, _ => .timeout
  | fuel + 1, st => assigmentP fuel st

/-- `Parser::assigment` (sic): right-associative assignment, reporting an
invalid target at the `=` token. -/
def assigmentP : Nat → PState → PRes Expr
  | 0, _ => .timeout
  | fuel + 1, st =>
    (logicOrP fuel st).and_then fun expr st₁ =>
    (consumeP st₁ .EQUAL).and_then fun eqTok st₂ =>
      match eqTok with
      | some _ =>
        (previousP st₂).and_then fun equals st₃ =>
        (assigmentP fuel st₃).and_then fun value st₄ =>
          match expr with
          | .var name => .ok (.assign name value) st₄
          | _ => .err (Error.syntax_err .S009 equals) st₄
      | none => .ok expr st₂

/-- `Parser::logic_or`: left-associative `or` chain. -/
def logicOrP : Nat → PState → PRes Expr
  | 0, _ => .timeout
  | fuel + 1, st =>
    (logicAndP fuel st).and_then fun expr st₁ => logicOrLoopP fuel st₁ expr

/-- The `while` loop of `Parser::logic_or`. -/
def logicOrLoopP : Nat → PState → Expr → PRes Expr
  | 0, _, _ => .timeout
  | fuel + 1, st, expr =>
    (isTokenOfKindP st [.OR]).and_then fun found st₁ =>
      if found then
        (previousP st₁).and_then fun operator st₂ =>
        (logicAndP fuel st₂).and_then fun right st₃ =>
          logicOrLoopP fuel st₃ (.logical operator expr right)
      else .ok expr st₁

/-- `Parser::logic_and`: left-associative `and` chain. -/
def logicAndP : Nat → PState → PRes Expr
  | 0, _ => .timeout
  | fuel + 1, st =>
    (equalityP fuel st).and_then fun expr st₁ => logicAndLoopP fuel st₁ expr

/-- The `while` loop of `Parser::logic_and`. -/
def logicAndLoopP : Nat → PState → Expr → PRes Expr
  | 0, _, _ => .timeout
  | fuel + 1, st, expr =>
    (isTokenOfKindP st [.AND]).and_then fun found st₁ =>
      if found then
        (previousP st₁).and_then fun operator st₂ =>
        (equalityP fuel st₂).and_then fun right st₃ =>
          logicAndLoopP fuel st₃ (.logical operator expr right)
      else .ok expr st₁

/-- `Parser::equality`: left-associative `!=` / `==` chain. -/
def equalityP : Nat → PState → PRes Expr
  | 0, _ => .timeout
  | fuel + 1, st =>
    (comparisonP fuel st).and_then fun expr st₁ => equalityLoopP fuel st₁ expr

/-- The `while` loop of `Parser::equality`. -/
def equalityLoopP : Nat → PState → Expr → PRes Expr
  | 0, _, _ => .timeout
  | fuel + 1, st, expr =>
    (isTokenOfKindP st [.BANGEQUAL, .EQUALEQUAL]).and_then fun found st₁ =>
      if found then
        (previousP st₁).and_then fun operator st₂ =>
        (comparisonP fuel st₂).and_then fun right st₃ =>
          equalityLoopP fuel st₃ (.binary operator expr right)
      else .ok expr st₁

/-- `Parser::comparison`: left-associative comparison chain. -/
def comparisonP : Nat → PState → PRes Expr
  | 0, _ => .timeout
  | fuel + 1, st =>
    (termP fuel st).and_then fun expr st₁ => comparisonLoopP fuel st₁ expr

/-- The `while` loop of `Parser::comparison`. -/
def comparisonLoopP : Nat → PState → Expr → PRes Expr
  | 0, _, _ => .timeout
  | fuel + 1, st, expr =>
    (isTokenOfKindP st [.LESS, .LESSEQUAL, .GREATER, .GREATEREQUAL]).and_then
      fun found st₁ =>
        if found then
          (previousP st₁).and_then fun operator st₂ =>
          (termP fuel st₂).and_then fun right st₃ =>
            comparisonLoopP fuel st₃ (.binary operator expr right)
        else .ok expr st₁

/-- `Parser::term`: left-associative `-` / `+` chain. -/
def termP : Nat → PState → PRes Expr
  | 0, _ => .timeout
  | fuel + 1, st =>
    (factorP fuel st).and_then fun expr st₁ => termLoopP fuel st₁ expr

/-- The `while` loop of `Parser::term`. -/
def termLoopP : Nat → PState → Expr → PRes Expr
  | 0, _, _ => .timeout
  | fuel + 1, st, expr =>
    (isTokenOfKindP st [.MINUS, .PLUS]).and_then fun found st₁ =>
      if found then
        (previousP st₁).and_then fun operator st₂ =>
        (factorP fuel st₂).and_then fun right st₃ =>
          termLoopP fuel st₃ (.binary operator expr right)
      else .ok expr st₁

/-- `Parser::factor`: left-associative `/` / `*` chain. -/
def factorP : Nat → PState → PRes Expr
  | 0, _ => .timeout
  | fuel + 1, st =>
    (unaryP fuel st).and_then fun expr st₁ => factorLoopP fuel st₁ expr

/-- The `while` loop of `Parser::factor`. -/
def factorLoopP : Nat → PState → Expr → PRes Expr
  | 0, _, _ => .timeout
  | fuel + 1, st, expr =>
    (isTokenOfKindP st [.SLASH, .STAR]).and_then fun found st₁ =>
      if found then
        (previousP st₁).and_then fun operator st₂ =>
        (unaryP fuel st₂).and_then fun right st₃ =>
          factorLoopP fuel st₃ (.binary operator expr right)
      else .ok expr st₁

/-- `Parser::unary`: prefix `!` / `-`, else primary. -/
def unaryP : Nat → PState → PRes Expr
  | 0, _ => .timeout
  | fuel + 1, st =>
    (isTokenOfKindP st [.BANG, .MINUS]).and_then fun found st₁ =>
      if found then
        (previousP st₁).and_then fun operator st₂ =>
        (unaryP fuel st₂).and_then fun e st₃ =>
          .ok (.unary operator e) st₃
      else primaryP fuel st₁

/-- `Parser::primary` (`src/onoi/src/parser.rs:246-270`): literals,
identifiers, parenthesized forms; the payloads of the sentinel kinds
(`NUMBER(1.0)`, `STRING("")`, `IDENTIFIER("")`) are ignored by the
discriminant comparison. -/
def primaryP : Nat → PState → PRes Expr
  | 0, _ => .timeout
  | fuel + 1, st =>
    (isTokenOfKindP st [.FALSE, .TRUE, .NUMBER 1, .STRING ""]).and_then
      fun isLit st₁ =>
        if isLit then
          (previousP st₁).and_then fun value st₂ => .ok (.literal value) st₂
        else
          (consumeP st₁ (.IDENTIFIER "")).and_then fun identTok st₂ =>
            match identTok with
            | some _ =>
              (previousP st₂).and_then fun name st₃ => .ok (.var name) st₃
            | none =>
              (isTokenOfKindP st₂ [.LEFTPAREN]).and_then fun isParen st₃ =>
                if isParen then tupleP fuel st₃
                else
                  (previousP st₃).and_then fun prev st₄ =>
                    .err (Error.syntax_err .S004 prev) st₄

/-- `Parser::tuple` (`src/onoi/src/parser.rs:272-294`): called with the
cursor just past `(`.  An immediate `)` is the unit tuple; otherwise a
comma-separated list of expressions is read, `)` is required (else `S003`
anchored at the opening token), and the arity decides `Group` (exactly one
inner, mirroring `inners.len() == 1` / `inners.pop()`) versus `Tuple`. -/
def tupleP : Nat → PState → PRes Expr
  | 0, _ => .timeout
  | fuel + 1, st =>
    (consumeP st .RIGHTPAREN).and_then fun rp st₁ =>
      match rp with
      | some _ => .ok (.tuple []) st₁
      | none =>
        (previousP st₁).and_then fun opening_token st₂ =>
        (expressionP fuel st₂).and_then fun first st₃ =>
        (tupleInnersP fuel st₃).and_then fun more st₄ =>
        (consumeP st₄ .RIGHTPAREN).and_then fun rp₂ st₅ =>
          match rp₂ with
          | none => .err (Error.syntax_err .S003 opening_token) st₅
          | some _ =>
            match more with
            | [] => .ok (.group first) st₅
            | _ => .ok (.tuple (first :: more)) st₅

/-- The `while let Some(_) = consume(COMMA)` loop of `Parser::tuple`. -/
def tupleInnersP : Nat → PState → PRes (List Expr)
  | 0, _ => .timeout
  | fuel + 1, st =>
    (consumeP st .COMMA).and_then fun comma st₁ =>
      match comma with
      | none => .ok [] st₁
      | some _ =>
        (expressionP fuel st₁).and_then fun e st₂ =>
        (tupleInnersP fuel st₂).and_then fun rest st₃ =>
          .ok (e :: rest) st₃

/-- `Parser::ttype`: simple type keywords or a tuple type. -/
def ttypeP : Nat → PState → PRes Ty
  | 0, _ => .timeout
  | fuel + 1, st =>
    (consumeP st .BOOL).and_then fun boolTok st₁ =>
      match boolTok with
      | some _ => .ok .bool st₁
      | none =>
        (consumeP st₁ .NUMBERKW).and_then fun numTok st₂ =>
          match numTok with
          | some _ => .ok .number st₂
          | none =>
            (consumeP st₂ .STRINGKW).and_then fun strTok st₃ =>
              match strTok with
              | some _ => .ok .text st₃
              | none =>
                (consumeP st₃ .LEFTPAREN).and_then fun lp st₄ =>
                  match lp with
                  | some _ => tupleTypeP fuel st₄
                  | none =>
                    (previousP st₄).and_then fun prev st₅ =>
                      .err (Error.syntax_err .S006 prev) st₅

/-- `Parser::tuple_type`. -/
def tupleTypeP : Nat → PState → PRes Ty
  | 0, _ => .timeout
  | fuel + 1, st =>
    (consumeP st .RIGHTPAREN).and_then fun rp st₁ =>
      match rp with
      | some _ => .ok (.tuple []) st₁
      | none =>
        (previousP st₁).and_then fun opening_token st₂ =>
        (ttypeP fuel st₂).and_then fun first st₃ =>
        (tupleTypeInnersP fuel st₃).and_then fun more st₄ =>
        (consumeP st₄ .RIGHTPAREN).and_then fun rp₂ st₅ =>
          match rp₂ with
          | none => .err (Error.syntax_err .S003 opening_token) st₅
          | some _ => .ok (.tuple (first :: more)) st₅

/-- The comma loop of `Parser::tuple_type`. -/
def tupleTypeInnersP : Nat → PState → PRes (List Ty)
  | 0, _ => .timeout
  | fuel + 1, st =>
    (consumeP st .COMMA).and_then fun comma st₁ =>
      match comma with
      | none => .ok [] st₁
      | some _ =>
        (ttypeP fuel st₁).and_then fun t st₂ =>
        (tupleTypeInnersP fuel st₂).and_then fun rest st₃ =>
          .ok (t :: rest) st₃

end

/-- Outcome of `Parser::parse`: the statements and collected errors. -/
inductive ParseOut where
  | done (statements : List Stmt) (errors : List Error) (st : PState)
  | panicked
  | timeout

/-- The statement loop of `Parser::parse` (`src/onoi/src/parser.rs:44-66`):
parse declarations until EOF, recording errors and resynchronizing. -/
def parseLoopP : Nat → PState → ParseOut
  | 0, _ => .timeout
  | fuel + 1, st =>
    match isAtEndP st with
    | .ok true st₁ => .done [] [] st₁
    | .err _ _ => .panicked
    | .panicked => .panicked
    | .timeout => .timeout
    | .ok false st₁ =>
      match declarationP fuel st₁ with
      | .ok s st₂ =>
        (match parseLoopP fuel st₂ with
          | .done ss es st₃ => .done (s :: ss) es st₃
          | .panicked => .panicked
          | .timeout => .timeout)
      | .err e st₂ =>
        (match synchronizeP fuel st₂ with
          | .ok _ st₃ =>
            (match parseLoopP fuel st₃ with
              | .done ss es st₄ => .done ss (e :: es) st₄
              | .panicked => .panicked
              | .timeout => .timeout)
          | .err _ _ => .panicked
          | .panicked => .panicked
          | .timeout => .timeout)
      | .panicked => .panicked
      | .timeout => .timeout

/-- `Parser::parse` on a fresh cursor; `Ok` iff no errors were collected. -/
def parse (fuel : Nat) (tokens : List Token) : ParseOut :=
  parseLoopP fuel ⟨tokens, 0⟩

end Onoi

/-! ## Concrete sample tokens and programs used by the theorems -/

/-- The literal `0`. -/
def tkNum0 : Token := Token.new (.NUMBER 0) 0 4 "0"

/-- The literal `1`. -/
def tkNum1 : Token := Token.new (.NUMBER 1) 0 0 "1"

/-- The literal `2`. -/
def tkNum2 : Token := Token.new (.NUMBER 2) 0 3 "2"

/-- The literal `7`. -/
def tkNum7 : Token := Token.new (.NUMBER 7) 0 9 "7"

/-- The literal `99`. -/
def tkNum99 : Token := Token.new (.NUMBER 99) 0 6 "99"

/-- The string literal `"a"`. -/
def tkStrA : Token := Token.new (.STRING "a") 0 4 "a"

/-- The string literal `"b"`. -/
def tkStrB : Token := Token.new (.STRING "b") 0 10 "b"

/-- The literal `true`. -/
def tkTrue : Token := Token.new .TRUE 0 0 "true"

/-- A `/` token. -/
def tkSlash : Token := Token.new .SLASH 0 2 "/"

/-- A `+` token (first occurrence). -/
def tkPlus1 : Token := Token.new .PLUS 0 2 "+"

/-- A `+` token (second, distinct occurrence). -/
def tkPlus2 : Token := Token.new .PLUS 0 8 "+"

/-- An `or` token. -/
def tkOr : Token := Token.new .OR 0 5 "or"

/-- The identifier `f`. -/
def tkF : Token := Token.new (.IDENTIFIER "f") 0 4 "f"

/-- The identifier `x`. -/
def tkX : Token := Token.new (.IDENTIFIER "x") 0 4 "x"

/-- The identifier `i`. -/
def tkI : Token := Token.new (.IDENTIFIER "i") 0 4 "i"

/-- A `return` keyword token. -/
def tkReturn : Token := Token.new .RETURN 1 2 "return"

/-- A `(` token at a call site. -/
def tkParen : Token := Token.new .LEFTPAREN 2 1 "("

/-- A `..` token of a range expression. -/
def tkDotdot : Token := Token.new .DOTDOT 0 6 ".."

/-- `fun f() { return f(); }`: a function whose body calls its own name. -/
def c1decl : Ono.Stmt := .function tkF [] [.ret tkReturn (some (.var tkF))]

/-- `fun f() { return f(); } f();`. -/
def c1prog : List Ono.Stmt := [c1decl, .expression (.call (.var tkF) tkParen [])]

/-- The range expression `0..0..1` (from 0, step 0, to 1). -/
def c3range : Ono.Expr :=
  .rangeE tkDotdot (.literal tkNum0) (some (.literal tkNum0)) (.literal tkNum1)

/-- `for i in 0..0..1 {}`: a zero-step for statement. -/
def c3stmt : Ono.Stmt := .forStmt tkI c3range (.block [])

/-- The ill-typed onoi expression `1 + "a"`. -/
def c5bad1 : Onoi.Expr := .binary tkPlus1 (.literal tkNum1) (.literal tkStrA)

/-- The ill-typed onoi expression `2 + "b"`. -/
def c5bad2 : Onoi.Expr := .binary tkPlus2 (.literal tkNum2) (.literal tkStrB)

/-- `(1 + "a", 2 + "b");`: one statement with two erroneous
sub-expressions. -/
def c5stmtBoth : Onoi.Stmt := .expression (.tuple [c5bad1, c5bad2])

/-- `1 / 0;` as an onoi program. -/
def c2divProg : List Onoi.Stmt :=
  [.expression (.binary tkSlash (.literal tkNum1) (.literal tkNum0))]

/-- Token stream for `();`. -/
def c8toksUnit : List Token :=
  [Token.new .LEFTPAREN 0 0 "(", Token.new .RIGHTPAREN 0 1 ")",
   Token.new .SEMICOLON 0 2 ";", Token.new .EOF 1 0 "\n"]

/-- Token stream for `(1);`. -/
def c8toksGroup : List Token :=
  [Token.new .LEFTPAREN 0 0 "(", tkNum1, Token.new .RIGHTPAREN 0 2 ")",
   Token.new .SEMICOLON 0 3 ";", Token.new .EOF 1 0 "\n"]

/-- Token stream for `(1, 2);`. -/
def c8toksPair : List Token :=
  [Token.new .LEFTPAREN 0 0 "(", tkNum1, Token.new .COMMA 0 2 ",",
   tkNum2, Token.new .RIGHTPAREN 0 4 ")", Token.new .SEMICOLON 0 5 ";",
   Token.new .EOF 1 0 "\n"]

/-- A caller scope `{x ↦ 1}` for exercising `Function::call`. -/
def c9caller : Environment Ono.Value :=
  (Environment.new Ono.Value).define "x" (.number 1)

/-- A closure captured over `c9caller`. -/
def c9closure : Environment Ono.Value := c9caller.new_nested

/-- A function body `x = 99;` that mutates the enclosing scope. -/
def c9body : List Ono.Stmt := [.expression (.assign tkX (.literal tkNum99))]

/-! ## Claim theorems -/

/-- C10: `Value::is_truthy` returns the wrapped boolean on `Bool`, `true` on
every `Number` and `Text`, and on tuples returns `true` exactly when the
tuple is empty — the unit tuple is truthy, every non-empty tuple falsy. -/
theorem c10_is_truthy_table :
    (∀ b : Bool, (Val.bool b).is_truthy = b) ∧
    (∀ n : Rat, (Val.number n).is_truthy = true) ∧
    (∀ s : String, (Val.text s).is_truthy = true) ∧
    (∀ l : List Val, ((Val.tuple l).is_truthy = true ↔ l = [])) := by
  refine ⟨fun b => rfl, fun n => rfl, fun s => rfl, fun l => ?_⟩
  cases l <;> simp [Val.is_truthy]

/-- C10 at concrete tuples: unit is truthy, a one-element tuple is not. -/
theorem c10_is_truthy_table_witness :
    (Val.tuple []).is_truthy = true ∧ ¬ (Val.tuple [.number 1]).is_truthy = true :=
  ⟨(c10_is_truthy_table.2.2.2 []).mpr rfl,
   fun hc => by simpa using (c10_is_truthy_table.2.2.2 [.number 1]).mp hc⟩

/-- C6: evaluating a binary `/` whose operands evaluate to numbers `l` and
`r` divides exactly when `r ≠ 0` and otherwise reports the DivisionByZero
runtime error `R002` anchored at the `/` token; evaluation is total here
(no panic outcome) and the quotient is the exact rational `l / r`. -/
theorem c6_slash_division_guard :
    ∀ (fuel : Nat) (σ σ₁ σ₂ : Environment Ono.Value) (op : Token)
      (a b : Ono.Expr) (l r : Rat),
    Ono.evalExpr fuel σ a = .ok (.number l) σ₁ →
    Ono.evalExpr fuel σ₁ b = .ok (.number r) σ₂ →
    op.kind = .SLASH →
    Ono.evalExpr (fuel + 1) σ (.binary op a b) =
      (if r = 0 then .err (Ono.Error.runtime_err .R002 op) σ₂
       else .ok (.number (l / r)) σ₂) := by
  intro fuel σ σ₁ σ₂ op a b l r ha hb hop
  by_cases h : r = 0 <;>
    simp [Ono.evalExpr, ha, hb, Ono.Interpreter.binary, hop, h]

/-- C6 at `1 / 0`: type-correct, yet evaluation yields `R002` at `/`. -/
theorem c6_slash_division_guard_witness :
    Ono.evalExpr 2 Ono.create_global_environment
        (.binary tkSlash (.literal tkNum1) (.literal tkNum0)) =
      .err (Ono.Error.runtime_err .R002 tkSlash) Ono.create_global_environment := by
  have h := c6_slash_division_guard 1 Ono.create_global_environment
    Ono.create_global_environment Ono.create_global_environment tkSlash
    (.literal tkNum1) (.literal tkNum0) 1 0 rfl rfl rfl
  simpa using h

/-- C7: logical `or`/`and` evaluate the left operand first and short-circuit:
`or` answers the left value itself when it is truthy, `and` answers the left
value itself when it is falsy — for *any* right operand, which is therefore
not evaluated — and otherwise the result is exactly the evaluation of the
right operand; the deciding operand's own value is returned, never a coerced
boolean. -/
theorem c7_logical_short_circuit :
    ∀ (fuel : Nat) (σ σ₁ : Environment Ono.Value) (op : Token)
      (a b : Ono.Expr) (v : Ono.Value),
    Ono.evalExpr fuel σ a = .ok v σ₁ →
    ((op.kind = .OR → v.is_truthy = true →
        Ono.evalExpr (fuel + 1) σ (.logical op a b) = .ok v σ₁) ∧
     (op.kind = .OR → v.is_truthy = false →
        Ono.evalExpr (fuel + 1) σ (.logical op a b) = Ono.evalExpr fuel σ₁ b) ∧
     (op.kind = .AND → v.is_truthy = false →
        Ono.evalExpr (fuel + 1) σ (.logical op a b) = .ok v σ₁) ∧
     (op.kind = .AND → v.is_truthy = true →
        Ono.evalExpr (fuel + 1) σ (.logical op a b) = Ono.evalExpr fuel σ₁ b)) := by
  intro fuel σ σ₁ op a b v ha
  refine ⟨?_, ?_, ?_, ?_⟩ <;> intro hop ht <;>
    simp [Ono.evalExpr, ha, hop, ht]

/-- C7 at `true or (1 / 0)`: the truthy left operand is answered as-is and
the poisoned right operand is never evaluated. -/
theorem c7_logical_short_circuit_witness :
    Ono.evalExpr 2 Ono.create_global_environment
        (.logical tkOr (.literal tkTrue)
          (.binary tkSlash (.literal tkNum1) (.literal tkNum0))) =
      .ok (.bool true) Ono.create_global_environment :=
  (c7_logical_short_circuit 1 Ono.create_global_environment
    Ono.create_global_environment tkOr (.literal tkTrue)
    (.binary tkSlash (.literal tkNum1) (.literal tkNum0)) (.bool true) rfl).1
    rfl rfl

/-- C9: whenever a user-defined function call completes (normally or via
`return`), `Function::call` restores the interpreter's environment to
exactly the caller's environment from before the call, so no binding the
body assigned is visible to the caller afterwards; the body-final scope is
persisted only into the called `Function` value's own `closure` field
(the second component, which `visit_expression` drops). -/
theorem c9_call_restores_caller_environment :
    ∀ (fuel : Nat) (fname : Token) (fparams : List String)
      (fbody : List Ono.Stmt) (fclosure : Environment Ono.Value)
      (args : List Ono.Value) (σ σ' : Environment Ono.Value) (v : Ono.Value)
      (updatedClosure : Environment Ono.Value),
    Ono.callFunction fuel fname fparams fbody fclosure args σ =
      .ok (v, updatedClosure) σ' →
    σ' = σ ∧ (∀ name, σ'.get name = σ.get name) := by
  intro fuel fname fparams fbody fclosure args σ σ' v upd h
  match fuel with
  | 0 => exact absurd h (by simp [Ono.callFunction])
  | fuel + 1 =>
    rw [Ono.callFunction] at h
    revert h
    cases hb : Ono.execBody fuel (Ono.bindParams fclosure fparams args) fbody <;>
      simp
    intro _ _ hσ
    exact ⟨hσ.symm, fun name => by rw [hσ]⟩

/-- C9 at a concrete call whose body executes `x = 99;` against a captured
scope over the caller's `{x ↦ 1}`: the caller environment comes back
unchanged and still reads `x = 1`. -/
theorem c9_call_restores_caller_environment_witness :
    (Ono.callFunction 5 tkF [] c9body c9closure [] c9caller =
      .ok (.null, Environment.mk (some ((Environment.new Ono.Value).define "x"
        (.number 99))) []) c9caller) ∧
    c9caller = c9caller ∧ c9caller.get "x" = some (.number 1) :=
  ⟨rfl,
   (c9_call_restores_caller_environment 5 tkF [] c9body c9closure [] c9caller
      c9caller .null (Environment.mk (some ((Environment.new Ono.Value).define "x"
        (.number 99))) []) rfl).1,
   rfl⟩

/-- C4 counterexample: a `return` executed at the top level of a program is
propagated out of `Interpreter::interpret` as an `Err` carrying the return
signal — `interpret` does report an error result for it. -/
theorem c4_counterexample_top_level_return :
    Ono.interpret 2 Ono.create_global_environment [.ret tkReturn none] =
      .err (Ono.Error.return_err .null tkReturn)
        Ono.create_global_environment := rfl

/-- C4 (amended): the return signal unwinds exactly to the nearest enclosing
`Function::call` boundary — the body loop stops at the first returning
statement, ignoring the rest of the body, and the boundary converts the
signal into the call's result value while restoring the caller's scope —
but at the top level, with no boundary to catch it, the signal escapes
`interpret` as an `Err`. -/
theorem c4_return_unwinds_to_nearest_call_boundary :
    (∀ (fuel : Nat) (σ σ₁ : Environment Ono.Value) (s : Ono.Stmt)
       (rest : List Ono.Stmt) (er : Ono.Error) (v : Ono.Value),
       Ono.execStmt fuel σ s = .err er σ₁ → er.kind = .ret v →
       Ono.execBody (fuel + 1) σ (s :: rest) = .ok v σ₁) ∧
    (∀ (fuel : Nat) (fname : Token) (fparams : List String)
       (fbody : List Ono.Stmt) (fclosure : Environment Ono.Value)
       (args : List Ono.Value) (σ σe : Environment Ono.Value) (v : Ono.Value),
       Ono.execBody fuel (Ono.bindParams fclosure fparams args) fbody =
         .ok v σe →
       Ono.callFunction (fuel + 1) fname fparams fbody fclosure args σ =
         .ok (v, σe) σ) ∧
    (∀ (fuel : Nat) (σ : Environment Ono.Value) (kw : Token)
       (rest : List Ono.Stmt),
       Ono.interpret (fuel + 2) σ (.ret kw none :: rest) =
         .err (Ono.Error.return_err .null kw) σ) := by
  refine ⟨?_, ?_, ?_⟩
  · intro fuel σ σ₁ s rest er v hs hk
    simp [Ono.execBody, hs, hk]
  · intro fuel fname fparams fbody fclosure args σ σe v hb
    simp [Ono.callFunction, hb]
  · intro fuel σ kw rest
    simp [Ono.interpret, Ono.execStmts, Ono.execStmt, Ono.Error.return_err]

/-- C4 at concrete programs: a body `return 7; return 1;` yields `7` through
the call boundary, an empty body yields `null` with the caller scope
restored, and a lone top-level `return;` escapes `interpret` as an `Err`. -/
theorem c4_return_unwinds_witness :
    Ono.execBody 3 Ono.create_global_environment
        [.ret tkReturn (some (.literal tkNum7)), .ret tkReturn (some (.literal tkNum1))] =
      .ok (.number 7) Ono.create_global_environment ∧
    Ono.callFunction 4 tkF [] [] c9closure [] c9caller = .ok (.null, c9closure) c9caller ∧
    Ono.interpret 5 Ono.create_global_environment [.ret tkReturn none] =
      .err (Ono.Error.return_err .null tkReturn) Ono.create_global_environment :=
  ⟨c4_return_unwinds_to_nearest_call_boundary.1 2 Ono.create_global_environment
     Ono.create_global_environment _ _ _ (.number 7) rfl rfl,
   c4_return_unwinds_to_nearest_call_boundary.2.1 3 tkF [] [] c9closure []
     c9caller c9closure .null rfl,
   c4_return_unwinds_to_nearest_call_boundary.2.2 3 Ono.create_global_environment
     tkReturn []⟩

/-- C1: the environment captured at a function declaration is a fresh frame
over a *pre-definition deep copy* of the scope, not the frame the name is
then defined into: after `fun f() { return f(); }` executes, the stored
`Function`'s captured closure does not contain `f` at all, and the
recursive call fails with the undefined-identifier runtime error `R001` —
the self-lookup the claim requires does not succeed. -/
theorem c1_closure_capture_is_predefinition_copy :
    Ono.execStmt 5 Ono.create_global_environment c1decl =
      .ok () (Ono.create_global_environment.define "f"
        (.function tkF [] [.ret tkReturn (some (.var tkF))]
          Ono.create_global_environment.new_nested)) ∧
    (Ono.create_global_environment.new_nested).get "f" = none ∧
    Ono.interpret 30 Ono.create_global_environment c1prog =
      .err (Ono.Error.runtime_err .R001 tkF)
        Ono.create_global_environment.new_nested :=
  ⟨rfl, rfl, rfl⟩

/-- Re-inserting a key overwrites the previous insertion. -/
theorem frameInsert_frameInsert {V : Type} (vs : List (String × V))
    (n : String) (v w : V) :
    frameInsert (frameInsert vs n v) n w = frameInsert vs n w := by
  induction vs with
  | nil => simp [frameInsert]
  | cons hd tl ih =>
    obtain ⟨k, x⟩ := hd
    by_cases h : k = n <;> simp [frameInsert, h, ih]

/-- A freshly inserted key is found by frame lookup. -/
theorem frameGet_frameInsert_self {V : Type} (vs : List (String × V))
    (n : String) (v : V) :
    frameGet (frameInsert vs n v) n = some v := by
  induction vs with
  | nil => simp [frameInsert, frameGet]
  | cons hd tl ih =>
    obtain ⟨k, x⟩ := hd
    by_cases h : k = n <;> simp [frameInsert, frameGet, h, ih]

/-- Assigning a name just `define`d in the innermost frame succeeds and
replaces that binding. -/
theorem assign_define {V : Type} (σ : Environment V) (n : String) (v w : V) :
    (σ.define n v).assign n w = some (σ.define n w) := by
  obtain ⟨enc, vs⟩ := σ
  cases enc <;>
    simp [Environment.define, Environment.assign, frameGet_frameInsert_self,
      frameInsert_frameInsert]

/-- The `for` loop body `{}` with step `0` never advances: every fuel bound
is exhausted (the Rust loop runs forever). -/
theorem c3_zero_step_loop_times_out :
    ∀ (fuel : Nat) (base : Environment Ono.Value) (q num : Rat), num < 1 →
    Ono.forLoop fuel (base.define "i" (.number q)) "i" num 1 0 (.block []) =
      .timeout := by
  intro fuel
  induction fuel with
  | zero => intro base q num h; rfl
  | succ fuel ih =>
    intro base q num h
    rw [Ono.forLoop, if_pos h, assign_define]
    match fuel with
    | 0 => rfl
    | 1 => rfl
    | fuel + 2 =>
      have hstep : Ono.execStmt (fuel + 2) (base.define "i" (.number num))
          (.block []) = .ok () (base.define "i" (.number num)) := by
        simp [Ono.execStmt, Ono.execStmts, Environment.nest,
          Environment.new_nested, Environment.pop]
      simp only [hstep]
      have := ih base num (num + 0) (by simpa using h)
      simpa using this

/-- C3: the bad-range guard of `Stmt::For` tests only
`(step > 0 ∧ to ≤ from) ∨ (step < 0 ∧ from ≤ to)`, which is *false* for a
step of exactly zero: `for i in 0..0..1 {}` is accepted instead of being
rejected with `R003`, and the loop then never advances — for every fuel
bound the execution times out (the Rust program loops forever), and no
bad-range error is ever produced. -/
theorem c3_zero_step_is_accepted_and_diverges :
    ∀ (fuel : Nat) (σ : Environment Ono.Value),
      Ono.execStmt fuel σ c3stmt = .timeout := by
  intro fuel σ
  match fuel with
  | 0 => rfl
  | 1 => rfl
  | 2 => rfl
  | fuel + 3 =>
    have hr : Ono.evalExpr (fuel + 2) σ c3range = .ok (.range 1 0 0) σ := by
      simp [c3range, Ono.evalExpr, tkNum0, tkNum1, Token.new, Ono.Value.fromToken]
    have hguard : ¬ (((0 : Rat) > 0 ∧ (1 : Rat) ≤ 0) ∨ ((0 : Rat) < 0 ∧ (0 : Rat) ≤ 1)) := by
      norm_num
    rw [show fuel + 3 = (fuel + 2) + 1 from rfl]
    simp only [c3stmt, Ono.execStmt, hr, hguard, if_false]
    have hmin : min (1 : Rat) 0 = 0 := by norm_num
    have hmax : max (1 : Rat) 0 = 1 := by norm_num
    rw [hmin, hmax]
    have := c3_zero_step_loop_times_out (fuel + 2) σ 0 0 (by norm_num)
    simpa [tkI, Token.new] using this

/-- C5 counterexample: `(1 + "a", 2 + "b");` contains two erroneous
sub-expressions — each, checked alone, yields its own `T001` — yet
`Typechecker::check` returns only the first one: the error list has a single
element, not the complete list the claim requires. -/
theorem c5_counterexample_two_bad_subexpressions_one_error :
    Onoi.checkExpr 20 (Environment.new Ty) c5bad1 =
      .err (Onoi.Error.type_err (.T001 .number .text) tkPlus1)
        (Environment.new Ty) ∧
    Onoi.checkExpr 20 (Environment.new Ty) c5bad2 =
      .err (Onoi.Error.type_err (.T001 .number .text) tkPlus2)
        (Environment.new Ty) ∧
    Onoi.check 20 [c5stmtBoth] =
      .done [Onoi.Error.type_err (.T001 .number .text) tkPlus1]
        (Environment.new Ty) :=
  ⟨rfl, rfl, rfl⟩

/-- C5 (amended): `check` collects at most one type error per top-level
statement — the first one that statement's traversal hits (`?` aborts the
rest of the statement) — but never stops at an erroneous statement: the loop
continues, so separate erroneous statements each contribute their first
error, in order. -/
theorem c5_check_collects_first_error_of_each_statement :
    (∀ (fuel : Nat) (σ σ' σ'' : Environment Ty) (s : Onoi.Stmt)
       (rest : List Onoi.Stmt) (er : Onoi.Error) (l : List Onoi.Error),
       Onoi.checkStmt fuel σ s = .err er σ' →
       Onoi.checkLoop fuel σ' rest = .done l σ'' →
       Onoi.checkLoop (fuel + 1) σ (s :: rest) = .done (er :: l) σ'') ∧
    Onoi.check 20 [.expression c5bad1, .expression c5bad2] =
      .done [Onoi.Error.type_err (.T001 .number .text) tkPlus1,
             Onoi.Error.type_err (.T001 .number .text) tkPlus2]
        (Environment.new Ty) := by
  refine ⟨?_, rfl⟩
  intro fuel σ σ' σ'' s rest er l h1 h2
  simp [Onoi.checkLoop, h1, h2]

/-- C5 at a concrete erroneous statement followed by an empty tail: the
statement's first error is recorded and checking continues. -/
theorem c5_check_collects_first_error_witness :
    Onoi.checkLoop 11 (Environment.new Ty) [.expression c5bad1] =
      .done [Onoi.Error.type_err (.T001 .number .text) tkPlus1]
        (Environment.new Ty) :=
  c5_check_collects_first_error_of_each_statement.1 10 (Environment.new Ty)
    (Environment.new Ty) (Environment.new Ty) (.expression c5bad1) []
    (Onoi.Error.type_err (.T001 .number .text) tkPlus1) [] rfl rfl

/-- Every `Err` the onoi interpreter can produce carries the
division-by-zero kind `Runtime(R001)`: the `SLASH` zero-divisor branch is
the interpreter's only error-construction site; all other failures are
`language_error` panics (the `abort` outcome), not errors. -/
theorem onoi_interpreter_errors_are_division_by_zero : ∀ fuel : Nat,
    (∀ σ e er σ', Onoi.evalExprO fuel σ e = .err er σ' →
      er.kind = .run .R001) ∧
    (∀ σ es er σ', Onoi.evalExprListO fuel σ es = .err er σ' →
      er.kind = .run .R001) ∧
    (∀ σ s er σ', Onoi.execStmtO fuel σ s = .err er σ' →
      er.kind = .run .R001) ∧
    (∀ σ ss er σ', Onoi.execStmtListO fuel σ ss = .err er σ' →
      er.kind = .run .R001) := by
  intro fuel
  induction fuel with
  | zero =>
    refine ⟨?_, ?_, ?_, ?_⟩ <;> intro σ x er σ' h <;>
      simp [Onoi.evalExprO, Onoi.evalExprListO, Onoi.execStmtO,
        Onoi.execStmtListO] at h
  | succ fuel ih =>
    obtain ⟨ihE, ihL, ihS, ihSS⟩ := ih
    have hE : ∀ σ e er σ', Onoi.evalExprO (fuel + 1) σ e = .err er σ' →
        er.kind = .run .R001 := by
      intro σ e er σ' h
      cases e with
      | literal v => simp [Onoi.evalExprO] at h
      | group ex => exact ihE _ _ _ _ (by simpa [Onoi.evalExprO] using h)
      | tuple inners =>
        simp only [Onoi.evalExprO] at h
        cases hl : Onoi.evalExprListO fuel σ inners <;> rw [hl] at h <;>
          simp at h
        exact h.1 ▸ ihL _ _ _ _ hl
      | logical op l r =>
        simp only [Onoi.evalExprO] at h
        cases h1 : Onoi.evalExprO fuel σ l <;> rw [h1] at h <;> simp at h
        case ok lv σ₁ =>
          split at h
          · simp at h
          · simp at h
          · exact ihE _ _ _ _ h
        case err e2 σ₁ => exact h.1 ▸ ihE _ _ _ _ h1
      | unary op ex =>
        simp only [Onoi.evalExprO] at h
        cases h1 : Onoi.evalExprO fuel σ ex <;> rw [h1] at h <;> simp at h
        case ok v σ₁ =>
          split at h <;> (try split at h) <;> simp at h
        case err e2 σ₁ => exact h.1 ▸ ihE _ _ _ _ h1
      | binary op l r =>
        simp only [Onoi.evalExprO] at h
        cases h1 : Onoi.evalExprO fuel σ l <;> rw [h1] at h <;> simp at h
        case ok lv σ₁ =>
          cases h2 : Onoi.evalExprO fuel σ₁ r <;> rw [h2] at h <;> simp at h
          case ok rv σ₂ =>
            split at h <;> split at h <;> try simp at h
            case _ =>
              -- the SLASH branch: the inner if decides error vs quotient
              split at h <;> simp at h
              exact h.1 ▸ rfl
          case err e2 σ₂ => exact h.1 ▸ ihE _ _ _ _ h2
        case err e2 σ₁ => exact h.1 ▸ ihE _ _ _ _ h1
      | var name =>
        simp only [Onoi.evalExprO] at h
        split at h <;> simp at h
      | assign name ex =>
        simp only [Onoi.evalExprO] at h
        cases h1 : Onoi.evalExprO fuel σ ex <;> rw [h1] at h <;> simp at h
        case ok v σ₁ =>
          split at h <;> simp at h
        case err e2 σ₁ => exact h.1 ▸ ihE _ _ _ _ h1
      | block stmts finallyE =>
        simp only [Onoi.evalExprO] at h
        cases h1 : Onoi.execStmtListO fuel σ.new_nested stmts <;> rw [h1] at h <;>
          simp at h
        case ok u σ₁ =>
          cases finallyE with
          | none => simp at h
          | some fe =>
            simp only at h
            cases h2 : Onoi.evalExprO fuel σ₁ fe <;> rw [h2] at h <;> simp at h
            case err e2 σ₂ => exact h.1 ▸ ihE _ _ _ _ h2
        case err e2 σ₁ => exact h.1 ▸ ihSS _ _ _ _ h1
    refine ⟨hE, ?_, ?_, ?_⟩
    · intro σ es er σ' h
      cases es with
      | nil => simp [Onoi.evalExprListO] at h
      | cons e rest =>
        simp only [Onoi.evalExprListO] at h
        cases h1 : Onoi.evalExprO fuel σ e <;> rw [h1] at h <;> simp at h
        case ok v σ₁ =>
          cases h2 : Onoi.evalExprListO fuel σ₁ rest <;> rw [h2] at h <;>
            simp at h
          case err e2 σ₂ => exact h.1 ▸ ihL _ _ _ _ h2
        case err e2 σ₁ => exact h.1 ▸ ihE _ _ _ _ h1
    · intro σ s er σ' h
      cases s with
      | expression ex =>
        simp only [Onoi.execStmtO] at h
        cases h1 : Onoi.evalExprO fuel σ ex <;> rw [h1] at h <;> simp at h
        exact h.1 ▸ ihE _ _ _ _ h1
      | letStmt name tt init =>
        simp only [Onoi.execStmtO] at h
        cases h1 : Onoi.evalExprO fuel σ init <;> rw [h1] at h <;> simp at h
        exact h.1 ▸ ihE _ _ _ _ h1
    · intro σ ss er σ' h
      cases ss with
      | nil => simp [Onoi.execStmtListO] at h
      | cons s rest =>
        simp only [Onoi.execStmtListO] at h
        cases h1 : Onoi.execStmtO fuel σ s <;> rw [h1] at h <;> simp at h
        case ok u σ₁ =>
          exact ihSS _ _ _ _ h
        case err e2 σ₁ => exact h.1 ▸ ihS _ _ _ _ h1

/-- Errors collected by the interpreter's statement loop are all
division-by-zero errors. -/
theorem onoi_interpLoop_errors_are_division_by_zero :
    ∀ (fuel : Nat) (σ : Environment Val) (stmts : List Onoi.Stmt)
      (l : List Onoi.Error) (σ' : Environment Val),
    Onoi.interpLoop fuel σ stmts = .done l σ' →
    ∀ er ∈ l, er.kind = .run .R001 := by
  intro fuel
  induction fuel with
  | zero => intro σ stmts l σ' h; simp [Onoi.interpLoop] at h
  | succ fuel ih =>
    intro σ stmts l σ' h
    cases stmts with
    | nil =>
      simp only [Onoi.interpLoop] at h
      simp at h
      simp [h.1]
    | cons s rest =>
      simp only [Onoi.interpLoop] at h
      cases h1 : Onoi.execStmtO fuel σ s <;> rw [h1] at h <;> try simp at h
      case ok u σ₁ => exact ih _ _ _ _ h
      case err e2 σ₁ =>
        cases h2 : Onoi.interpLoop fuel σ₁ rest <;> rw [h2] at h <;> simp at h
        obtain ⟨hl, -⟩ := h
        subst hl
        intro er hm
        rcases List.mem_cons.mp hm with hm | hm
        · subst hm
          exact (onoi_interpreter_errors_are_division_by_zero fuel).2.2.1
            _ _ _ _ h1
        · exact ih _ _ _ _ h2 er hm

/-- C2: for a program the onoi typechecker passes with no errors, every
user-facing error interpretation reports is the division-by-zero runtime
error `R001` — never an undefined-variable or operand-mismatch error; an
undefined variable at runtime would be a `language_error` defensive panic,
not a `RuntimeError`. -/
theorem c2_typechecked_runtime_failures_are_division_only :
    ∀ (fuelT fuel : Nat) (stmts : List Onoi.Stmt) (σT : Environment Ty)
      (l : List Onoi.Error) (σ : Environment Val),
    Onoi.check fuelT stmts = .done [] σT →
    Onoi.interpret fuel stmts = .done l σ →
    ∀ er ∈ l, er.kind = .run .R001 := by
  intro fuelT fuel stmts σT l σ _hcheck hrun
  exact onoi_interpLoop_errors_are_division_by_zero fuel _ stmts l σ hrun

/-- C2 at `1 / 0;`: the program type-checks, interpretation collects exactly
one error, and that error is division-by-zero. -/
theorem c2_typechecked_runtime_failures_witness :
    (Onoi.Error.runtime_err .R001 tkSlash).kind = .run .R001 :=
  c2_typechecked_runtime_failures_are_division_only 10 10 c2divProg
    (Environment.new Ty) [Onoi.Error.runtime_err .R001 tkSlash]
    ((Environment.new Val)) rfl rfl
    (Onoi.Error.runtime_err .R001 tkSlash) (List.mem_singleton.mpr rfl)

/-- C8: the parser resolves a parenthesized primary form by arity — `()`
parses to the empty `Tuple` (the unit value), exactly one inner expression
and no comma parses to a `Group` wrapping it, and two or more
comma-separated inners parse to a `Tuple` holding them in source order; in
general every successful `Parser::tuple` result is the unit tuple, a group,
or a tuple of at least two elements. -/
theorem c8_paren_arity_dispatch :
    (∀ (fuel : Nat) (st st' : Onoi.PState) (e : Onoi.Expr),
       Onoi.tupleP fuel st = .ok e st' →
       e = .tuple [] ∨ (∃ x, e = .group x) ∨
         (∃ l, 2 ≤ l.length ∧ e = .tuple l)) ∧
    Onoi.parse 30 c8toksUnit =
      .done [.expression (.tuple [])] [] ⟨c8toksUnit, 3⟩ ∧
    Onoi.parse 30 c8toksGroup =
      .done [.expression (.group (.literal tkNum1))] [] ⟨c8toksGroup, 4⟩ ∧
    Onoi.parse 30 c8toksPair =
      .done [.expression (.tuple [.literal tkNum1, .literal tkNum2])] []
        ⟨c8toksPair, 6⟩ := by
  refine ⟨?_, rfl, rfl, rfl⟩
  intro fuel st st' e h
  match fuel with
  | 0 => simp [Onoi.tupleP] at h
  | fuel + 1 =>
    simp only [Onoi.tupleP] at h
    cases h1 : Onoi.consumeP st .RIGHTPAREN <;> rw [h1] at h <;>
      simp [Onoi.PRes.and_then] at h
    case ok rp st₁ =>
      cases rp with
      | some t =>
        simp at h
        exact Or.inl h.1.symm
      | none =>
        simp only at h
        cases h2 : Onoi.previousP st₁ <;> rw [h2] at h <;>
          simp [Onoi.PRes.and_then] at h
        case ok opening st₂ =>
          cases h3 : Onoi.expressionP fuel st₂ <;> rw [h3] at h <;>
            simp [Onoi.PRes.and_then] at h
          case ok first st₃ =>
            cases h4 : Onoi.tupleInnersP fuel st₃ <;> rw [h4] at h <;>
              simp [Onoi.PRes.and_then] at h
            case ok more st₄ =>
              cases h5 : Onoi.consumeP st₄ .RIGHTPAREN <;> rw [h5] at h <;>
                simp [Onoi.PRes.and_then] at h
              case ok rp₂ st₅ =>
                cases rp₂ with
                | none => simp at h
                | some t₂ =>
                  simp only at h
                  cases more with
                  | nil =>
                    simp at h
                    exact Or.inr (Or.inl ⟨first, h.1.symm⟩)
                  | cons m ms =>
                    simp at h
                    refine Or.inr (Or.inr ⟨first :: m :: ms, ?_, h.1.symm⟩)
                    simp

/-- C8 at the token stream of `(1, 2);`: `Parser::tuple`, entered past the
`(`, answers a two-element `Tuple`, which the dispatch classifies. -/
theorem c8_paren_arity_dispatch_witness :
    Onoi.tupleP 25 ⟨c8toksPair, 1⟩ =
      .ok (.tuple [.literal tkNum1, .literal tkNum2]) ⟨c8toksPair, 5⟩ ∧
    (Onoi.Expr.tuple [.literal tkNum1, .literal tkNum2] = .tuple [] ∨
      (∃ x, Onoi.Expr.tuple [.literal tkNum1, .literal tkNum2] = .group x) ∨
      (∃ l, 2 ≤ l.length ∧
        Onoi.Expr.tuple [.literal tkNum1, .literal tkNum2] = .tuple l)) :=
  ⟨rfl, c8_paren_arity_dispatch.1 25 ⟨c8toksPair, 1⟩ ⟨c8toksPair, 5⟩ _ rfl⟩
